import Mathlib

/-!
Verification development for the GST document pipeline
(`server/agents/gstr1_extraction_agent.py`, `server/agents/date_filtering_agent.py`,
`server/agents/categorization_agent.py`, `server/usecases/document_usecase.py`).

Python strings are modelled as `List Char`, Python floats as rationals
(the inputs relevant here are finite decimals; IEEE special values are
outside this model and are noted where they matter), Python `dict`s as
insertion-ordered association lists, and raised exceptions as `Except PyErr`.
External collaborators (the generative-model call, `json.loads`,
`dateutil.parser.parse`) are modelled as explicit oracles or by faithful
local parsers for the input shapes exercised by the program.
-/

/-- Python strings are sequences of characters. -/
abbrev Str := List Char

/-- The characters matched by Python's `\s` (ASCII range), and stripped by `str.strip()`. -/
def isPySpace (c : Char) : Bool :=
  c = ' ' || c = '\t' || c = '\n' || c = '\r' || c = '\x0b' || c = '\x0c'

/-- Model of Python `str.strip()`: remove leading and trailing whitespace. -/
def pyStrip (s : Str) : Str :=
  ((s.dropWhile isPySpace).reverse.dropWhile isPySpace).reverse

/-- Model of Python `str.lower()` (ASCII case folding, which covers all strings used here). -/
def toLowerStr (s : Str) : Str := s.map Char.toLower

/-- Model of Python `str.upper()`. -/
def toUpperStr (s : Str) : Str := s.map Char.toUpper

/-- Value of a digit character. -/
def digitVal (c : Char) : Nat := c.toNat - 48

/-- Numeric value of a digit string (most significant first). -/
def digitsToNat (ds : Str) : Nat := ds.foldl (fun a c => a * 10 + digitVal c) 0

/-- Decimal rendering of a natural number, as in Python `str(n)`. -/
def natToStr (n : Nat) : Str := Nat.toDigits 10 n

/-- Two-digit zero-padded rendering (Python `f"{n:02d}"`). -/
def pad2 (n : Nat) : Str := if n < 10 then '0' :: natToStr n else natToStr n

/-- Four-digit zero-padded rendering (glibc `strftime("%Y")`). -/
def pad4 (n : Nat) : Str :=
  if n < 10 then '0' :: '0' :: '0' :: natToStr n
  else if n < 100 then '0' :: '0' :: natToStr n
  else if n < 1000 then '0' :: natToStr n
  else natToStr n

/-- Rendering of a rational into a string.  This stands in for Python's
`str()`/f-string formatting of floats; no claim in this file depends on the
exact float rendering, only on the rendering being a function of the value. -/
def ratToStr (q : ℚ) : Str := (toString q).data

/-- Split a string on a single separator character (Python `str.split(sep)`). -/
def splitOnChar (sep : Char) (s : Str) : List Str :=
  match s with
  | [] => [[]]
  | c :: rest =>
    let tail := splitOnChar sep rest
    if c = sep then [] :: tail
    else match tail with
      | [] => [[c]]
      | t :: ts => (c :: t) :: ts

/-- One step of substring search: does `pat` occur at the head of `s`? -/
def isPrefixCI (pat s : Str) : Bool := pat.isPrefixOf s

/-- Split a string on non-overlapping occurrences of a non-empty separator
substring `h :: t`, scanning left to right (Python `str.split(sub)`).
The structural fuel is passed as `length + 1` by the wrapper; every step
consumes at least one character, so it never runs out. -/
def splitOnSubAux (h : Char) (t : Str) : Nat → Str → Str → List Str
  | _, [], cur => [cur.reverse]
  | 0, s, cur => [cur.reverse ++ s]
  | fuel + 1, s@(c :: rest), cur =>
    if (h :: t).isPrefixOf s then
      cur.reverse :: splitOnSubAux h t fuel (rest.drop t.length) []
    else
      splitOnSubAux h t fuel rest (c :: cur)

/-- Python `str.split(sub)` for a literal separator. -/
def splitOnSub (sep s : Str) : List Str :=
  match sep with
  | [] => [s]
  | h :: t => splitOnSubAux h t (s.length + 1) s []

/-- Python's substring test `sub in s` (contiguous occurrence). -/
def containsSub (sub : Str) : Str → Bool
  | [] => sub.isEmpty
  | s@(_ :: rest) => sub.isPrefixOf s || containsSub sub rest

/-- Model of Python `float(str)` on finite decimal/scientific literals.
`inf`/`nan` literals are outside the rational model and are mapped to
failure; no claim below exercises them. Digit-group underscores are not
modelled. -/
def parseFloat (s0 : Str) : Option ℚ :=
  let s := pyStrip s0
  let (neg, s) : Bool × Str :=
    match s with
    | '-' :: r => (true, r)
    | '+' :: r => (false, r)
    | r => (false, r)
  let ip := s.takeWhile Char.isDigit
  let s1 := s.drop ip.length
  let (fp, s2) : Str × Str :=
    match s1 with
    | '.' :: r => (r.takeWhile Char.isDigit, r.drop (r.takeWhile Char.isDigit).length)
    | r => ([], r)
  if ip = [] && fp = [] then none else
  let num : Nat := digitsToNat ip * 10 ^ fp.length + digitsToNat fp
  let den : Nat := 10 ^ fp.length
  let signed : Nat → Nat → Option ℚ := fun n d =>
    some (mkRat (if neg then -(n : Int) else (n : Int)) d)
  match s2 with
  | [] => signed num den
  | e :: r =>
    if e = 'e' || e = 'E' then
      let (esgn, r) : Bool × Str :=
        match r with
        | '-' :: r2 => (true, r2)
        | '+' :: r2 => (false, r2)
        | r2 => (false, r2)
      let ed := r.takeWhile Char.isDigit
      if ed = [] || r.drop ed.length ≠ [] then none
      else if esgn then signed num (den * 10 ^ digitsToNat ed)
      else signed (num * 10 ^ digitsToNat ed) den
    else none

/-- Python runtime errors; the distinctions matter only for which `except`
clause catches them, and all handlers in this code are bare `except`. -/
inductive PyErr where
  | attributeError
  | typeError
  | valueError
  | keyError
  | indexError
deriving DecidableEq, Repr

/-- Decidable equality for `Except` results (used to evaluate witnesses). -/
instance {e a : Type} [DecidableEq e] [DecidableEq a] : DecidableEq (Except e a) := fun x y =>
  match x, y with
  | .ok v, .ok w =>
    if h : v = w then isTrue (by rw [h]) else isFalse (by intro hc; cases hc; exact h rfl)
  | .ok _, .error _ => isFalse (by intro hc; cases hc)
  | .error _, .ok _ => isFalse (by intro hc; cases hc)
  | .error v, .error w =>
    if h : v = w then isTrue (by rw [h]) else isFalse (by intro hc; cases hc; exact h rfl)

/-- Python values as passed between the pipeline stages: `None`, numbers
(floats and ints, both modelled as rationals), strings, lists, and
insertion-ordered dicts. -/
inductive PyVal where
  | none
  | num (q : ℚ)
  | str (s : Str)
  | list (xs : List PyVal)
  | dict (kvs : List (Str × PyVal))

/-- Python truthiness. -/
def pyTruthy : PyVal → Bool
  | .none => false
  | .num q => q ≠ 0
  | .str s => !s.isEmpty
  | .list xs => !xs.isEmpty
  | .dict kvs => !kvs.isEmpty

/-- Model of Python `str(x)`.  The rendering of containers is abstracted to a
fixed placeholder; no claim depends on it (it can only reach string fields of
malformed inputs, where only idempotence of later trimming matters). -/
def pyToStr : PyVal → Str
  | .none => "None".data
  | .num q => ratToStr q
  | .str s => s
  | .list _ => "<list>".data
  | .dict _ => "<dict>".data

/-- Model of Python `float(x)`: numbers pass through, strings are parsed,
everything else raises (`none`). -/
def pyFloat : PyVal → Option ℚ
  | .num q => some q
  | .str s => parseFloat s
  | _ => Option.none

/-- Python `x or default`. -/
def pyOr (x dflt : PyVal) : PyVal := if pyTruthy x then x else dflt

/-- Lookup in an insertion-ordered dict with a default (`dict.get(k, dflt)`). -/
def dictGet (kvs : List (Str × PyVal)) (k : Str) (dflt : PyVal) : PyVal :=
  match kvs.find? (fun p => p.1 = k) with
  | some p => p.2
  | Option.none => dflt

/-- Python dict assignment `d[k] = v`: replace in place if the key exists,
else append preserving insertion order. -/
def dictSet (kvs : List (Str × PyVal)) (k : Str) (v : PyVal) : List (Str × PyVal) :=
  if kvs.any (fun p => p.1 = k) then
    kvs.map (fun p => if p.1 = k then (k, v) else p)
  else kvs ++ [(k, v)]

/-- Python dict-literal merge `{**base, k1: v1, ...}`: each update replaces an
existing key in place or is appended in order. -/
def dictMerge (base : List (Str × PyVal)) (upds : List (Str × PyVal)) : List (Str × PyVal) :=
  upds.foldl (fun acc p => dictSet acc p.1 p.2) base

/-- Calendar dates (proleptic Gregorian, as `datetime.date`). -/
structure Date where
  year : Nat
  month : Nat
  day : Nat
deriving DecidableEq, Repr

def isLeapYear (y : Nat) : Bool := y % 4 = 0 && (y % 100 ≠ 0 || y % 400 = 0)

/-- `calendar.monthrange(y, m)[1]`. -/
def daysInMonth (y m : Nat) : Nat :=
  if m = 2 then (if isLeapYear y then 29 else 28)
  else if m = 4 || m = 6 || m = 9 || m = 11 then 30
  else 31

/-- A calendar-valid date with `datetime`'s `MINYEAR = 1` constraint. -/
def validDate (y m d : Nat) : Bool :=
  1 ≤ y && 1 ≤ m && m ≤ 12 && 1 ≤ d && d ≤ daysInMonth y m

/-- `calendar.month_name[m]`. -/
def monthName : Nat → Str
  | 1 => "January".data | 2 => "February".data | 3 => "March".data
  | 4 => "April".data | 5 => "May".data | 6 => "June".data
  | 7 => "July".data | 8 => "August".data | 9 => "September".data
  | 10 => "October".data | 11 => "November".data | 12 => "December".data
  | _ => []

/-- `calendar.month_abbr[m]`. -/
def monthAbbr : Nat → Str
  | 1 => "Jan".data | 2 => "Feb".data | 3 => "Mar".data | 4 => "Apr".data
  | 5 => "May".data | 6 => "Jun".data | 7 => "Jul".data | 8 => "Aug".data
  | 9 => "Sep".data | 10 => "Oct".data | 11 => "Nov".data | 12 => "Dec".data
  | _ => []

/-- Inclusive comparison of dates. -/
def dateLe (a b : Date) : Bool :=
  a.year < b.year || (a.year = b.year && (a.month < b.month ||
    (a.month = b.month && a.day ≤ b.day)))

/-- The day after `d`. -/
def nextDay (d : Date) : Date :=
  if d.day < daysInMonth d.year d.month then ⟨d.year, d.month, d.day + 1⟩
  else if d.month < 12 then ⟨d.year, d.month + 1, 1⟩
  else ⟨d.year + 1, 1, 1⟩

/-- Is `s` a run of 1 to `maxLen` digits? (`strptime` numeric directives). -/
def isDigits (s : Str) (maxLen : Nat) : Bool :=
  s ≠ [] && s.length ≤ maxLen && s.all Char.isDigit

/-- Model of `datetime.strptime(s, "%Y-%m-%d")`, returning the date when the
string parses and names a calendar-valid date. -/
def strptimeYmd (s : Str) : Option Date :=
  match splitOnChar '-' s with
  | [ys, ms, ds] =>
    if isDigits ys 4 && isDigits ms 2 && isDigits ds 2 &&
       validDate (digitsToNat ys) (digitsToNat ms) (digitsToNat ds) then
      some ⟨digitsToNat ys, digitsToNat ms, digitsToNat ds⟩
    else Option.none
  | _ => Option.none

/-- Model of `datetime.strptime(s, "%d-%m-%Y")`. -/
def strptimeDmy (s : Str) : Option Date :=
  match splitOnChar '-' s with
  | [ds, ms, ys] =>
    if isDigits ys 4 && isDigits ms 2 && isDigits ds 2 &&
       validDate (digitsToNat ys) (digitsToNat ms) (digitsToNat ds) then
      some ⟨digitsToNat ys, digitsToNat ms, digitsToNat ds⟩
    else Option.none
  | _ => Option.none

/-- Model of `datetime.strptime(s, "%d/%m/%Y")`. -/
def strptimeDmySlash (s : Str) : Option Date :=
  match splitOnChar '/' s with
  | [ds, ms, ys] =>
    if isDigits ys 4 && isDigits ms 2 && isDigits ds 2 &&
       validDate (digitsToNat ys) (digitsToNat ms) (digitsToNat ds) then
      some ⟨digitsToNat ys, digitsToNat ms, digitsToNat ds⟩
    else Option.none
  | _ => Option.none

/-- Month number of a (case-insensitive) English month abbreviation, as
matched by `strptime`'s `%b`. -/
def abbrToMonth (s : Str) : Option Nat :=
  (List.range 12).findSome? (fun i =>
    if toLowerStr s = toLowerStr (monthAbbr (i + 1)) then some (i + 1) else Option.none)

/-- Month number of a full or abbreviated English month name (used by the
`dateutil` model). -/
def nameToMonth (s : Str) : Option Nat :=
  (List.range 12).findSome? (fun i =>
    if toLowerStr s = toLowerStr (monthAbbr (i + 1)) ||
       toLowerStr s = toLowerStr (monthName (i + 1)) then some (i + 1) else Option.none)

/-- Model of `datetime.strptime(s, "%d-%b-%Y")`. -/
def strptimeDbY (s : Str) : Option Date :=
  match splitOnChar '-' s with
  | [ds, bs, ys] =>
    match abbrToMonth bs with
    | some m =>
      if isDigits ys 4 && isDigits ds 2 && validDate (digitsToNat ys) m (digitsToNat ds) then
        some ⟨digitsToNat ys, m, digitsToNat ds⟩
      else Option.none
    | Option.none => Option.none
  | _ => Option.none

/-- `date.strftime("%Y-%m-%d")`. -/
def isoDateStr (d : Date) : Str := pad4 d.year ++ "-".data ++ pad2 d.month ++ "-".data ++ pad2 d.day

/-!
## `GSTR1ExtractionAgent.validate_gst_data`
(`server/agents/gstr1_extraction_agent.py`, lines 134-185)

The validated invoice is modelled first as a typed record (`VRec`) and then
rendered back to the dict the Python code actually builds (`vrecToDict`,
listing the keys in the code's assignment order); `validate_gst_data` is the
composition.
-/

/-- A validated line item (the fields assigned by `validate_gst_data`'s item loop). -/
structure VItem where
  product_name : Str
  hsn_code : Str
  quantity : ℚ
  unit_price : ℚ
  taxable_value : ℚ
  igst_rate : ℚ
  cgst_rate : ℚ
  sgst_rate : ℚ
  igst : ℚ
  cgst : ℚ
  sgst : ℚ
  cess : ℚ
deriving DecidableEq, Repr

/-- A validated invoice (the fields assigned by `validate_gst_data`). -/
structure VRec where
  invoice_no : Str
  recipient_gstin : Str
  recipient_name : Str
  invoice_date : Option Str
  invoice_value : ℚ
  taxable_value : ℚ
  igst : ℚ
  cgst : ℚ
  sgst : ℚ
  cess : ℚ
  items : List VItem
  place_of_supply : Str
deriving DecidableEq, Repr

/-- `str(x or '').strip()` from `validate_gst_data`. -/
def coerceStr (v : PyVal) : Str := pyStrip (pyToStr (pyOr v (.str [])))

/-- `float(x)` with `0.0` on failure, from `validate_gst_data`'s
`try: float(...) except: 0.0` blocks. -/
def coerceNum (v : PyVal) : ℚ := (pyFloat v).getD 0

/-- The item loop body of `validate_gst_data`: each iterated element must
support `.get` (a dict), otherwise the loop raises. -/
def validateItem : PyVal → Except PyErr VItem
  | .dict kvs => .ok
      { product_name := coerceStr (dictGet kvs "product_name".data (.str []))
        hsn_code := coerceStr (dictGet kvs "hsn_code".data (.str []))
        quantity := coerceNum (dictGet kvs "quantity".data (.num 0))
        unit_price := coerceNum (dictGet kvs "unit_price".data (.num 0))
        taxable_value := coerceNum (dictGet kvs "taxable_value".data (.num 0))
        igst_rate := coerceNum (dictGet kvs "igst_rate".data (.num 0))
        cgst_rate := coerceNum (dictGet kvs "cgst_rate".data (.num 0))
        sgst_rate := coerceNum (dictGet kvs "sgst_rate".data (.num 0))
        igst := coerceNum (dictGet kvs "igst".data (.num 0))
        cgst := coerceNum (dictGet kvs "cgst".data (.num 0))
        sgst := coerceNum (dictGet kvs "sgst".data (.num 0))
        cess := coerceNum (dictGet kvs "cess".data (.num 0)) }
  | _ => .error .attributeError

/-- `validate_gst_data` on a candidate dict, producing the typed record.
Iterating a non-list `items` value raises unless the value is an empty
string/dict (whose iteration performs no loop step). -/
def validateFields : PyVal → Except PyErr VRec
  | .dict kvs => do
    let items ← match dictGet kvs "items".data (.list []) with
      | .list xs => xs.mapM validateItem
      | .str [] => .ok []
      | .dict [] => .ok []
      | .str _ => .error .attributeError
      | .dict _ => .error .attributeError
      | _ => .error .typeError
    .ok
      { invoice_no := coerceStr (dictGet kvs "invoice_no".data (.str []))
        recipient_gstin := coerceStr (dictGet kvs "recipient_gstin".data (.str []))
        recipient_name := coerceStr (dictGet kvs "recipient_name".data (.str []))
        invoice_date :=
          match dictGet kvs "invoice_date".data (.str []) with
          | .str s => if (strptimeYmd s).isSome then some s else Option.none
          | _ => Option.none
        invoice_value := coerceNum (dictGet kvs "invoice_value".data (.num 0))
        taxable_value := coerceNum (dictGet kvs "taxable_value".data (.num 0))
        igst := coerceNum (dictGet kvs "igst".data (.num 0))
        cgst := coerceNum (dictGet kvs "cgst".data (.num 0))
        sgst := coerceNum (dictGet kvs "sgst".data (.num 0))
        cess := coerceNum (dictGet kvs "cess".data (.num 0))
        items := items
        place_of_supply := coerceStr (dictGet kvs "place_of_supply".data (.str [])) }
  | _ => .error .attributeError

/-- The key/value pairs of the dict built for one validated item, in
assignment order. -/
def vitemKvs (it : VItem) : List (Str × PyVal) :=
  [("product_name".data, .str it.product_name),
   ("hsn_code".data, .str it.hsn_code),
   ("quantity".data, .num it.quantity),
   ("unit_price".data, .num it.unit_price),
   ("taxable_value".data, .num it.taxable_value),
   ("igst_rate".data, .num it.igst_rate),
   ("cgst_rate".data, .num it.cgst_rate),
   ("sgst_rate".data, .num it.sgst_rate),
   ("igst".data, .num it.igst),
   ("cgst".data, .num it.cgst),
   ("sgst".data, .num it.sgst),
   ("cess".data, .num it.cess)]

/-- The dict built for one validated item. -/
def vitemToDict (it : VItem) : PyVal := .dict (vitemKvs it)

/-- The key/value pairs of the `validated` dict built by `validate_gst_data`,
in assignment order. -/
def vrecKvs (r : VRec) : List (Str × PyVal) :=
  [("invoice_no".data, .str r.invoice_no),
   ("recipient_gstin".data, .str r.recipient_gstin),
   ("recipient_name".data, .str r.recipient_name),
   ("invoice_date".data, match r.invoice_date with | some s => .str s | Option.none => .none),
   ("invoice_value".data, .num r.invoice_value),
   ("taxable_value".data, .num r.taxable_value),
   ("igst".data, .num r.igst),
   ("cgst".data, .num r.cgst),
   ("sgst".data, .num r.sgst),
   ("cess".data, .num r.cess),
   ("items".data, .list (r.items.map vitemToDict)),
   ("place_of_supply".data, .str r.place_of_supply)]

/-- The `validated` dict built by `validate_gst_data`. -/
def vrecToDict (r : VRec) : PyVal := .dict (vrecKvs r)

/-- `validate_gst_data(invoice_data)`: validate and clean a candidate invoice
dict, returning the cleaned dict. -/
def validate_gst_data (d : PyVal) : Except PyErr PyVal :=
  (validateFields d).map vrecToDict

/-!
## Deduplication
(`server/agents/gstr1_extraction_agent.py`, lines 75-132)
-/

/-- `_normalize_invoice_number`: empty/falsy becomes `""`; otherwise remove
whitespace, hyphens, slashes and backslashes from the upper-cased string. -/
def normalize_invoice_number (v : PyVal) : Str :=
  if pyTruthy v then
    (toUpperStr (pyToStr v)).filter (fun c => !(c = '-' || isPySpace c || c = '/' || c = '\\'))
  else []

/-- `_get_duplicate_key(invoice, user_gstin)`.  The B2B branch calls
`.strip()` on the raw `recipient_gstin` value, which raises when that value is
truthy but not a string; the B2CS branch calls `float` on `invoice_value`. -/
def get_duplicate_key (inv : PyVal) (user_gstin : Str) : Except PyErr Str :=
  match inv with
  | .dict kvs =>
    let invoice_no := normalize_invoice_number (dictGet kvs "invoice_no".data (.str []))
    let invoice_date := dictGet kvs "invoice_date".data (.str [])
    let g := dictGet kvs "recipient_gstin".data (.str [])
    if pyTruthy g && (pyStrip (pyToStr g)).length = 15 then
      match g with
      | .str gs => .ok ("B2B_".data ++ user_gstin ++ "_".data ++ pyStrip gs ++ "_".data ++
          invoice_no ++ "_".data ++ pyToStr invoice_date)
      | _ => .error .attributeError
    else
      match pyFloat (dictGet kvs "invoice_value".data (.num 0)) with
      | some v => .ok ("B2CS_".data ++ invoice_no ++ "_".data ++ pyToStr invoice_date ++
          "_".data ++ ratToStr v ++ "_".data ++ toUpperStr (pyStrip (pyToStr (dictGet kvs "recipient_name".data (.str [])))))
      | Option.none => .error .valueError
  | _ => .error .attributeError

/-- The loop of `_deduplicate_invoices`: `seen` is the set of keys already
kept (a list models the Python set; only membership is used), `out` the
retained invoices in order. -/
def dedupLoop (user_gstin : Str) : List PyVal → List Str → List PyVal → Except PyErr (List PyVal)
  | [], _, out => .ok out
  | inv :: rest, seen, out => do
    let k ← get_duplicate_key inv user_gstin
    if k ∈ seen then dedupLoop user_gstin rest seen out
    else dedupLoop user_gstin rest (seen ++ [k]) (out ++ [inv])

/-- `_deduplicate_invoices(invoices, user_gstin)`: keep the first invoice for
each duplicate key, in extraction order. -/
def deduplicate_invoices (invoices : List PyVal) (user_gstin : Str) : Except PyErr (List PyVal) :=
  dedupLoop user_gstin invoices [] []

/-!
## `_categorize_invoices`
(`server/agents/gstr1_extraction_agent.py`, lines 361-437)
-/

/-- The three GST buckets. -/
inductive GstCat where
  | b2b
  | b2cl
  | b2cs
deriving DecidableEq, Repr

/-- The null-marker strings checked by `_categorize_invoices`
(`['null', 'none', 'n/a', '']`). -/
def gstinNullMarkers : List Str := ["null".data, "none".data, "n/a".data, []]

/-- The loop body of `_categorize_invoices` for one invoice: decide the
bucket and set the invoice's `category` key.  `recipient_gstin` is re-bound
to its stripped string form when truthy; `has_gstin` requires a (then
necessarily string) truthy value whose lower-casing is not a null marker and
whose length is 15; `float(invoice.get("invoice_value", 0))` may raise. -/
def categorizeOne (inv : PyVal) : Except PyErr (PyVal × GstCat) :=
  match inv with
  | .dict kvs =>
    let g0 := dictGet kvs "recipient_gstin".data (.str [])
    let g := if pyTruthy g0 then PyVal.str (pyStrip (pyToStr g0)) else g0
    let has_gstin :=
      match g with
      | .str s => !s.isEmpty && !gstinNullMarkers.contains (toLowerStr s) && s.length = 15
      | _ => false
    match pyFloat (dictGet kvs "invoice_value".data (.num 0)) with
    | some v =>
      if has_gstin then
        .ok (.dict (dictSet kvs "category".data (.str "B2B".data)), .b2b)
      else if v > 250000 then
        .ok (.dict (dictSet kvs "category".data (.str "B2CL".data)), .b2cl)
      else
        .ok (.dict (dictSet kvs "category".data (.str "B2CS".data)), .b2cs)
    | Option.none => .error .valueError
  | _ => .error .attributeError

/-- `sum(float(inv.get("invoice_value", 0)) for inv in invoices)`. -/
def sumInvoiceValues : List PyVal → Except PyErr ℚ
  | [] => .ok 0
  | inv :: rest =>
    match inv with
    | .dict kvs =>
      match pyFloat (dictGet kvs "invoice_value".data (.num 0)) with
      | some v => do
        let s ← sumInvoiceValues rest
        .ok (v + s)
      | Option.none => .error .valueError
    | _ => .error .attributeError

/-- The inner tax sum for one invoice: iterate `inv.get("items", [])` and add
`float(item.get("igst", 0)) + float(item.get("cgst", 0)) + float(item.get("sgst", 0))`. -/
def invoiceTaxSum (inv : PyVal) : Except PyErr ℚ :=
  match inv with
  | .dict kvs =>
    match dictGet kvs "items".data (.list []) with
    | .list its => its.foldlM (fun acc it =>
        match it with
        | .dict ikvs =>
          match pyFloat (dictGet ikvs "igst".data (.num 0)),
                pyFloat (dictGet ikvs "cgst".data (.num 0)),
                pyFloat (dictGet ikvs "sgst".data (.num 0)) with
          | some a, some b, some c => .ok (acc + a + b + c)
          | _, _, _ => .error .valueError
        | _ => .error .attributeError) 0
    | .str [] => .ok 0
    | .dict [] => .ok 0
    | _ => .error .typeError
  | _ => .error .attributeError

def sumTaxAmounts : List PyVal → Except PyErr ℚ
  | [] => .ok 0
  | inv :: rest => do
    let a ← invoiceTaxSum inv
    let s ← sumTaxAmounts rest
    .ok (a + s)

/-- `_categorize_invoices(extraction_result)`: tag every invoice with its
bucket, partition into `b2b`/`b2cl`/`b2cs`, recompute totals, and merge the
summary keys over the input dict.  The in-place mutation of the invoice dicts
is modelled by re-binding the `invoices` key (when present) to the updated
list. -/
def categorize_invoices (extraction_result : PyVal) : Except PyErr PyVal :=
  match extraction_result with
  | .dict kvs => do
    let tagged ← (match dictGet kvs "invoices".data (.list []) with
      | .list invs => invs.mapM categorizeOne
      | .str [] => .ok []
      | .dict [] => .ok []
      | .str _ => .error .attributeError
      | .dict _ => .error .attributeError
      | _ => .error .typeError : Except PyErr (List (PyVal × GstCat)))
    let updated := tagged.map Prod.fst
    let b2b := (tagged.filter (fun p => p.2 = GstCat.b2b)).map Prod.fst
    let b2cl := (tagged.filter (fun p => p.2 = GstCat.b2cl)).map Prod.fst
    let b2cs := (tagged.filter (fun p => p.2 = GstCat.b2cs)).map Prod.fst
    let ttv ← sumInvoiceValues updated
    let tta ← sumTaxAmounts updated
    let base := if kvs.any (fun p => p.1 = "invoices".data)
      then dictSet kvs "invoices".data (.list updated) else kvs
    .ok (.dict (dictMerge base
      [("total_invoices".data, .num updated.length),
       ("b2b_invoices".data, .num b2b.length),
       ("b2cl_invoices".data, .num b2cl.length),
       ("b2cs_invoices".data, .num b2cs.length),
       ("total_taxable_value".data, .num ttv),
       ("total_tax_amount".data, .num tta),
       ("b2b".data, .list b2b),
       ("b2cl".data, .list b2cl),
       ("b2cs".data, .list b2cs),
       ("categorization_summary".data, .dict
         [("total_invoices".data, .num updated.length),
          ("b2b_count".data, .num b2b.length),
          ("b2cl_count".data, .num b2cl.length),
          ("b2cs_count".data, .num b2cs.length)])]))
  | _ => .error .attributeError

/-!
## `_manual_parse_invoices` and `extract_gstr1_data`
(`server/agents/gstr1_extraction_agent.py`, lines 187-359 and 439-525)

The six per-section `re.search` field extractors of the manual parser are
abstracted as an oracle record (`FieldRx`): each returns the captured group,
or `none` when the pattern does not occur.  All surrounding control flow —
section splitting, defaults, the fabricated line item, the inclusion filter
and the totals — is concrete.
-/

/-- Abstraction of the six `re.search` calls of `_manual_parse_invoices`
(invoice number, date, GSTIN, recipient name, place of supply, total
amount); each yields the matched group-1 text if any. -/
structure FieldRx where
  invoiceNo : Str → Option Str
  dateStr : Str → Option Str
  gstin : Str → Option Str
  recipient : Str → Option Str
  place : Str → Option Str
  total : Str → Option Str

/-- Length of the split keyword of `re.split(r'(?i)(?:invoice|bill|receipt|tax invoice)', ...)`
matching at the head of `s`, trying the alternatives in the regex's order. -/
def sectionKwAt (s : Str) : Option Nat :=
  let ls := toLowerStr (s.take 11)
  if ("invoice".data).isPrefixOf ls then some 7
  else if ("bill".data).isPrefixOf ls then some 4
  else if ("receipt".data).isPrefixOf ls then some 7
  else if ("tax invoice".data).isPrefixOf ls then some 11
  else Option.none

/-- Left-to-right scan splitting the content on the section keywords.
Structural fuel (`length + 1` from the wrapper, each step consumes at least
one character). -/
def splitSectionsAux : Nat → Str → Str → List Str
  | _, [], cur => [cur.reverse]
  | 0, s, cur => [cur.reverse ++ s]
  | fuel + 1, s@(c :: rest), cur =>
    match sectionKwAt s with
    | some n => cur.reverse :: splitSectionsAux fuel (rest.drop (n - 1)) []
    | Option.none => splitSectionsAux fuel rest (c :: cur)

/-- `re.split(r'(?i)(?:invoice|bill|receipt|tax invoice)', content)`. -/
def splitInvoiceSections (content : Str) : List Str :=
  splitSectionsAux (content.length + 1) content []

/-- The date normalization inside `_manual_parse_invoices`: `DD-MMM-YYYY`
when the middle dash-separated part has three letters, else `DD-MM-YYYY`
after replacing slashes; any parse failure yields the fixed default date. -/
def manualDateNormalize (ds : Str) : Str :=
  if ds.contains '-' && ((splitOnChar '-' ds).getD 1 []).length = 3 then
    match strptimeDbY ds with
    | some d => isoDateStr d
    | Option.none => "2025-08-24".data
  else
    match strptimeDmy (ds.map (fun c => if c = '/' then '-' else c)) with
    | some d => isoDateStr d
    | Option.none => "2025-08-24".data

/-- One section of `_manual_parse_invoices`: skip short sections, extract the
fields with defaults, fabricate the single line item, and keep the invoice
only when an invoice number was found and the total is positive.  The only
raise is `float()` on the matched amount text. -/
def manualSection (rx : FieldRx) (sec : Str) : Except PyErr (Option PyVal) :=
  if (pyStrip sec).length < 50 then .ok Option.none else do
  let noEntry : List (Str × PyVal) :=
    match rx.invoiceNo sec with
    | some n => [("invoice_no".data, .str n)]
    | Option.none => []
  let dateEntry : List (Str × PyVal) :=
    match rx.dateStr sec with
    | some ds => [("invoice_date".data, .str (manualDateNormalize ds))]
    | Option.none => []
  let gstinVal : PyVal :=
    match rx.gstin sec with
    | some g => .str g
    | Option.none => .none
  let nameVal : PyVal :=
    match rx.recipient sec with
    | some n => .str (pyStrip n)
    | Option.none => .str "Unknown Customer".data
  let placeVal : PyVal :=
    match rx.place sec with
    | some p => .str (pyStrip p)
    | Option.none => .str "Unknown".data
  let value ← (match rx.total sec with
    | some amt =>
      match parseFloat (amt.filter (fun c => c ≠ ',')) with
      | some v => .ok v
      | Option.none => .error .valueError
    | Option.none => .ok (0 : ℚ) : Except PyErr ℚ)
  let itemsVal : PyVal := .list [.dict
    [("product_name".data, .str "Extracted Item".data),
     ("hsn_code".data, .str "9999".data),
     ("quantity".data, .num 1),
     ("unit_price".data, .num value),
     ("taxable_value".data, .num (value * (85 / 100))),
     ("igst".data, .num (value * (15 / 100))),
     ("cgst".data, .num 0),
     ("sgst".data, .num 0),
     ("cess".data, .num 0)]]
  let kvs := noEntry ++ dateEntry ++
    [("recipient_gstin".data, gstinVal),
     ("recipient_name".data, nameVal),
     ("place_of_supply".data, placeVal),
     ("invoice_value".data, .num value),
     ("items".data, itemsVal)]
  if pyTruthy (dictGet kvs "invoice_no".data .none) && value > 0 then
    .ok (some (.dict kvs))
  else .ok Option.none

/-- `sum(inv.get(key, 0) for inv in invoices)` over raw (numeric) values. -/
def sumRawValues (key : Str) : List PyVal → Except PyErr ℚ
  | [] => .ok 0
  | inv :: rest =>
    match inv with
    | .dict kvs =>
      match dictGet kvs key (.num 0) with
      | .num q => do
        let s ← sumRawValues key rest
        .ok (q + s)
      | _ => .error .typeError
    | _ => .error .attributeError

/-- `_manual_parse_invoices(content)`. -/
def manual_parse_invoices (rx : FieldRx) (content : Str) : Except PyErr PyVal := do
  let secs := splitInvoiceSections content
  let parsed ← secs.mapM (manualSection rx)
  let invoices := parsed.filterMap id
  let ttv ← sumRawValues "invoice_value".data invoices
  let ttvTax ← sumRawValues "invoice_value".data invoices
  .ok (.dict
    [("total_invoices".data, .num invoices.length),
     ("total_taxable_value".data, .num ttv),
     ("total_tax_amount".data, .num (ttvTax * (15 / 100))),
     ("invoices".data, .list invoices)])

/-- The external collaborators of `extract_gstr1_data`: whether the API key
is configured, the model call's response text (`none` models a raised call,
a missing `.text`, or a `None` response object), and `json.loads`
(`none` models `JSONDecodeError`). -/
structure ExtractEnv where
  apiKey : Bool
  response : Option Str
  jsonParse : Str → Option PyVal
  rx : FieldRx

/-- `"\n".join(chunks)`. -/
def joinChunks : List Str → Str
  | [] => []
  | [c] => c
  | c :: rest => c ++ '\n' :: joinChunks rest

/-- The Markdown code-fence unwrapping of `extract_gstr1_data`
(lines 282-305). -/
def stripFences (t : Str) : Str :=
  if containsSub ("```json".data) t then
    let parts := splitOnSub "```json".data t
    if parts.length > 1 then
      pyStrip ((splitOnSub "```".data (parts.getD 1 [])).getD 0 [])
    else pyStrip t
  else if containsSub ("```".data) t then
    let parts := splitOnSub "```".data t
    if parts.length > 1 then
      pyStrip (if parts.length > 2 then (splitOnSub "```".data (parts.getD 1 [])).getD 0 []
               else parts.getD 1 [])
    else pyStrip t
  else pyStrip t

/-- The model-call path of `extract_gstr1_data` (lines 194-332), up to the
`except`: every failure — missing key, empty or unparseable response,
structurally incompatible JSON — surfaces as an error to be caught by the
fallback handler. -/
def modelPath (env : ExtractEnv) (user_gstin : Str) : Except PyErr PyVal := do
  if !env.apiKey then .error .valueError else
  match env.response with
  | Option.none => .error .valueError
  | some t0 =>
    if t0 = [] then .error .valueError else
    let rt := pyStrip t0
    if rt = [] then .error .valueError else
    let rt := stripFences rt
    if rt = [] then .error .valueError else
    match env.jsonParse rt with
    | Option.none => .error .valueError
    | some parsed =>
      match parsed with
      | .dict kvs =>
        let inv := dictGet kvs "invoices".data .none
        if pyTruthy inv then
          match inv with
          | .list xs => do
            let validated ← xs.mapM validate_gst_data
            let deduped ← deduplicate_invoices validated user_gstin
            categorize_invoices (.dict (dictSet kvs "invoices".data (.list deduped)))
          | .num _ => .error .typeError
          | _ => .error .attributeError
        else
          categorize_invoices (.dict (dictSet kvs "invoices".data (.list [])))
      | _ => .error .attributeError

/-- The literal empty result returned when both the model path and the
manual fallback fail (lines 348-359). -/
def defaultEmptyResult : PyVal := .dict
  [("total_invoices".data, .num 0),
   ("b2b_invoices".data, .num 0),
   ("b2cl_invoices".data, .num 0),
   ("b2cs_invoices".data, .num 0),
   ("total_taxable_value".data, .num 0),
   ("total_tax_amount".data, .num 0),
   ("invoices".data, .list []),
   ("b2b".data, .list []),
   ("b2cl".data, .list []),
   ("b2cs".data, .list [])]

/-- The `except` block of `extract_gstr1_data`: run the manual parser inside
its own `try`; categorize and return only when it yields a truthy invoice
list; otherwise (including any raise) signal no result. -/
def fallbackAttempt (rx : FieldRx) (content : Str) : Except PyErr (Option PyVal) := do
  let m ← manual_parse_invoices rx content
  match m with
  | .dict kvs =>
    if pyTruthy m && pyTruthy (dictGet kvs "invoices".data .none) then
      (categorize_invoices m).map some
    else .ok Option.none
  | _ => .ok Option.none

/-- `extract_gstr1_data(chunks, user_gstin, user_company_name)`: total — every
internal failure is absorbed by the fallback chain. -/
def extract_gstr1_data (env : ExtractEnv) (chunks : List Str)
    (user_gstin user_company_name : Str) : PyVal :=
  let content := joinChunks chunks
  match modelPath env user_gstin with
  | .ok r => r
  | .error _ =>
    match fallbackAttempt env.rx content with
    | .ok (some r) => r
    | _ => defaultEmptyResult

/-!
## `DateFilteringAgent`
(`server/agents/date_filtering_agent.py`)

The 13 date regexes of `_extract_all_dates_from_chunk` are embedded via a
small matcher for counted character classes with greedy matching and
backtracking (the only regex features those patterns use); both ends of every
pattern carry a `\b` word boundary, realised as the entry-side check in
`tryMatchAt` plus the trailing `eow` element.
-/

/-- Python's `\w` (ASCII range — the inputs here are ASCII). -/
def isWordChar (c : Char) : Bool := c.isAlphanum || c = '_'

/-- Elements of the date regexes: a counted character class (greedy),
a literal, an optional literal, the optional `(?::\d{2})?` seconds group,
and the trailing word boundary. -/
inductive RElem where
  | cls (p : Char → Bool) (lo hi : Nat)
  | lit (c : Char)
  | optLit (c : Char)
  | optColonPair
  | eow

/-- Length of the maximal run of `p`-characters at the head of `s`. -/
def maxRun (p : Char → Bool) (s : Str) : Nat := (s.takeWhile p).length

/-- The repetition counts tried for a counted class, in greedy order:
`m, m-1, ..., lo` (empty when `m < lo`). -/
def greedyCounts (lo m : Nat) : List Nat :=
  (List.range (m + 1 - lo)).map (fun j => m - j)

/-- All ways a sequence of elements can match at the head of `s`, as consumed
lengths in the preference order of Python's `re` (greedy classes with
backtracking, optional items tried consuming-first); the engine's match is
the head of this list.  The structural fuel decreases with every element, so
the `es.length + 1` passed by `matchSeq` is never exhausted. -/
def matchAll : Nat → List RElem → Str → List Nat
  | 0, _, _ => []
  | _ + 1, [], _ => [0]
  | fuel + 1, .cls p lo hi :: rest, s =>
    (greedyCounts lo (min (maxRun p s) hi)).flatMap
      (fun k => (matchAll fuel rest (s.drop k)).map (k + ·))
  | fuel + 1, .lit c :: rest, s =>
    match s with
    | c2 :: s2 => if c2 = c then (matchAll fuel rest s2).map (· + 1) else []
    | [] => []
  | fuel + 1, .optLit c :: rest, s =>
    (match s with
     | c2 :: s2 => if c2 = c then (matchAll fuel rest s2).map (· + 1) else []
     | [] => []) ++ matchAll fuel rest s
  | fuel + 1, .optColonPair :: rest, s =>
    (match s with
     | ':' :: a :: b :: s2 =>
       if a.isDigit && b.isDigit then (matchAll fuel rest s2).map (· + 3) else []
     | _ => []) ++ matchAll fuel rest s
  | fuel + 1, .eow :: rest, s =>
    match s with
    | [] => matchAll fuel rest s
    | c :: _ => if isWordChar c then [] else matchAll fuel rest s

/-- The engine's match at the head of `s`: the preferred (first) alternative. -/
def matchSeq (es : List RElem) (s : Str) : Option Nat :=
  (matchAll (es.length + 1) es s).head?

/-- A match attempt at a given position: all 13 patterns begin with a `\w`
character, so the leading `\b` holds exactly when the preceding character
(if any) is a non-word character. -/
def tryMatchAt (es : List RElem) (prev : Option Char) (s : Str) : Option Nat :=
  match prev with
  | some c => if isWordChar c then Option.none else matchSeq es s
  | Option.none => matchSeq es s

/-- `re.findall`: left-to-right, non-overlapping; on failure advance one
character.  (All patterns here consume at least one character.)  Structural
fuel (`length + 1` from the wrapper; each step consumes at least one
character). -/
def findAllAux (es : List RElem) : Nat → Option Char → Str → List Str
  | _, _, [] => []
  | 0, _, _ => []
  | fuel + 1, prev, c :: rest =>
    match tryMatchAt es prev (c :: rest) with
    | some (n + 1) =>
      (c :: rest).take (n + 1) ::
        findAllAux es fuel (((c :: rest).take (n + 1)).getLast?) (rest.drop n)
    | _ => findAllAux es fuel (some c) rest

def findAll (es : List RElem) (s : Str) : List Str :=
  findAllAux es (s.length + 1) Option.none s

/-- The separator class of slash and dash used by the date regexes. -/
def isSlashDash (c : Char) : Bool := c = '/' || c = '-'

/-- The 13 regexes of `_extract_all_dates_from_chunk`, in source order, each
with its trailing word boundary. -/
def dateRegexes : List (List RElem) :=
  [ -- \b\d{1,2}[/-]\d{1,2}[/-]\d{4}\b
    [.cls Char.isDigit 1 2, .cls isSlashDash 1 1, .cls Char.isDigit 1 2,
     .cls isSlashDash 1 1, .cls Char.isDigit 4 4, .eow],
    -- \b\d{1,2}\.\d{1,2}\.\d{4}\b
    [.cls Char.isDigit 1 2, .lit '.', .cls Char.isDigit 1 2, .lit '.', .cls Char.isDigit 4 4, .eow],
    -- \b\d{4}[/-]\d{1,2}[/-]\d{1,2}\b
    [.cls Char.isDigit 4 4, .cls isSlashDash 1 1, .cls Char.isDigit 1 2,
     .cls isSlashDash 1 1, .cls Char.isDigit 1 2, .eow],
    -- \b\d{4}\.\d{1,2}\.\d{1,2}\b
    [.cls Char.isDigit 4 4, .lit '.', .cls Char.isDigit 1 2, .lit '.', .cls Char.isDigit 1 2, .eow],
    -- \b\d{1,2}[-/]\w{3,9}[-/]\d{4}\b
    [.cls Char.isDigit 1 2, .cls isSlashDash 1 1, .cls isWordChar 3 9,
     .cls isSlashDash 1 1, .cls Char.isDigit 4 4, .eow],
    -- \b\d{1,2}\s+\w{3,9}\s+\d{4}\b
    [.cls Char.isDigit 1 2, .cls isPySpace 1 1000000, .cls isWordChar 3 9,
     .cls isPySpace 1 1000000, .cls Char.isDigit 4 4, .eow],
    -- \b\w{3,9}[-/]\d{1,2}[-/]\d{4}\b
    [.cls isWordChar 3 9, .cls isSlashDash 1 1, .cls Char.isDigit 1 2,
     .cls isSlashDash 1 1, .cls Char.isDigit 4 4, .eow],
    -- \b\w{3,9}\s+\d{1,2}\s*,?\s*\d{4}\b
    [.cls isWordChar 3 9, .cls isPySpace 1 1000000, .cls Char.isDigit 1 2,
     .cls isPySpace 0 1000000, .optLit ',', .cls isPySpace 0 1000000, .cls Char.isDigit 4 4, .eow],
    -- \b\d{1,2}\s+\w{3,9}\s*,\s*\d{4}\b
    [.cls Char.isDigit 1 2, .cls isPySpace 1 1000000, .cls isWordChar 3 9,
     .cls isPySpace 0 1000000, .lit ',', .cls isPySpace 0 1000000, .cls Char.isDigit 4 4, .eow],
    -- \b\w{3,9}\s+\d{4}\b
    [.cls isWordChar 3 9, .cls isPySpace 1 1000000, .cls Char.isDigit 4 4, .eow],
    -- \b\d{4}\s+\w{3,9}\b
    [.cls Char.isDigit 4 4, .cls isPySpace 1 1000000, .cls isWordChar 3 9, .eow],
    -- \b\d{1,2}[/-]\d{1,2}[/-]\d{2}\b
    [.cls Char.isDigit 1 2, .cls isSlashDash 1 1, .cls Char.isDigit 1 2,
     .cls isSlashDash 1 1, .cls Char.isDigit 2 2, .eow],
    -- \b\d{1,2}[/-]\d{1,2}[/-]\d{4}\s+\d{1,2}:\d{2}(?::\d{2})?\b
    [.cls Char.isDigit 1 2, .cls isSlashDash 1 1, .cls Char.isDigit 1 2,
     .cls isSlashDash 1 1, .cls Char.isDigit 4 4, .cls isPySpace 1 1000000,
     .cls Char.isDigit 1 2, .lit ':', .cls Char.isDigit 2 2, .optColonPair, .eow] ]

/-- `_extract_all_dates_from_chunk(chunk)`: run every regex and collect all
matches in pattern order. -/
def extract_all_dates_from_chunk (chunk : Str) : List Str :=
  dateRegexes.foldl (fun acc es => acc ++ findAll es chunk) []

/-- Token separators used by the `dateutil` model below. -/
def isTokSep (c : Char) : Bool := isPySpace c || c = ',' || c = '-' || c = '/' || c = '.'

/-- Split into maximal runs of non-separator characters.  Structural fuel
(`length + 1` from the wrapper; each step consumes at least one character). -/
def splitByPredAux (p : Char → Bool) : Nat → Str → List Str
  | _, [] => []
  | 0, s => [s]
  | fuel + 1, c :: rest =>
    if p c then splitByPredAux p fuel rest
    else (c :: rest.takeWhile (fun x => !p x)) ::
      splitByPredAux p fuel (rest.drop (rest.takeWhile (fun x => !p x)).length)

def splitByPred (p : Char → Bool) (s : Str) : List Str :=
  splitByPredAux p (s.length + 1) s

/-- Model of `dateutil.parser.parse(s, fuzzy=True)` for the date shapes the
extraction regexes produce: three numeric fields with `/`, `-` or `.`
separators (month-first with day/month swap when the first field exceeds 12,
two-digit years pivoted at 50), and month-name forms with an optional day
(`dateutil`'s default day — the current day — is modelled as 1; no claim
depends on it).  Fuzzy parses of richer text succeed in Python but are not
exercised by any theorem in this file. -/
def dateutilParse (s : Str) : Option Date :=
  let toks := splitByPred isTokSep s
  if toks.any (fun t => (nameToMonth t).isSome) then
    match toks.filter (fun t => (nameToMonth t).isSome) with
    | [mt] =>
      let m := (nameToMonth mt).getD 0
      let others := toks.filter (fun t => (nameToMonth t).isNone)
      if !others.all (fun t => t ≠ [] && t.all Char.isDigit) then Option.none
      else match others with
        | [ys] =>
          if ys.length = 4 && validDate (digitsToNat ys) m 1 then
            some ⟨digitsToNat ys, m, 1⟩
          else Option.none
        | [a, b] =>
          if a.length = 4 && b.length ≤ 2 && validDate (digitsToNat a) m (digitsToNat b) then
            some ⟨digitsToNat a, m, digitsToNat b⟩
          else if b.length = 4 && a.length ≤ 2 && validDate (digitsToNat b) m (digitsToNat a) then
            some ⟨digitsToNat b, m, digitsToNat a⟩
          else Option.none
        | _ => Option.none
    | _ => Option.none
  else
    match toks with
    | [a, b, c] =>
      if !((a ++ b ++ c).all Char.isDigit) || a = [] || b = [] || c = [] then Option.none
      else if a.length = 4 then
        if b.length ≤ 2 && c.length ≤ 2 &&
           validDate (digitsToNat a) (digitsToNat b) (digitsToNat c) then
          some ⟨digitsToNat a, digitsToNat b, digitsToNat c⟩
        else Option.none
      else if a.length ≤ 2 && b.length ≤ 2 && (c.length = 4 || c.length = 2) then
        let y := if c.length = 4 then digitsToNat c
          else if digitsToNat c < 50 then 2000 + digitsToNat c else 1900 + digitsToNat c
        let av := digitsToNat a
        let bv := digitsToNat b
        if av ≤ 12 && validDate y av bv then some ⟨y, av, bv⟩
        else if validDate y bv av then some ⟨y, bv, av⟩
        else Option.none
      else Option.none
    | _ => Option.none

/-- The `'%Y%m%d'` / `'%d%m%Y'` entries of `_parse_date_flexible`'s explicit
format list (the remaining formats are subsumed by the `dateutil` model,
which runs first). -/
def strptimeCompact (s : Str) : Option Date :=
  if s.length = 8 && s.all Char.isDigit then
    let y1 := digitsToNat (s.take 4)
    let m1 := digitsToNat ((s.drop 4).take 2)
    let d1 := digitsToNat (s.drop 6)
    if validDate y1 m1 d1 then some ⟨y1, m1, d1⟩
    else
      let d2 := digitsToNat (s.take 2)
      let m2 := digitsToNat ((s.drop 2).take 2)
      let y2 := digitsToNat (s.drop 4)
      if validDate y2 m2 d2 then some ⟨y2, m2, d2⟩ else Option.none
  else Option.none

/-- `_parse_date_flexible(date_str)`: `dateutil` first, then the explicit
format list; `None` on empty/unparseable input. -/
def parse_date_flexible (s0 : Str) : Option Date :=
  let s := pyStrip s0
  if s.isEmpty then Option.none
  else match dateutilParse s with
    | some d => some d
    | Option.none => strptimeCompact s

/-- `_is_date_in_range(date_obj, start_date, end_date)`. -/
def is_date_in_range (d : Date) (sd ed : Str) : Bool :=
  match parse_date_flexible sd, parse_date_flexible ed with
  | some a, some b => dateLe a d && dateLe d b
  | _, _ => false

/-- `_month_name_to_number`: the lowercase full-name table. -/
def month_name_to_number (s : Str) : Option Nat :=
  (List.range 12).findSome? (fun i =>
    if toLowerStr s = toLowerStr (monthName (i + 1)) then some (i + 1) else Option.none)

/-- Model of Python `int(str)`. -/
def pyIntOfStr (s : Str) : Option Int :=
  let t := pyStrip s
  match t with
  | '-' :: ds => if ds ≠ [] && ds.all Char.isDigit then some (-(digitsToNat ds : Int)) else Option.none
  | '+' :: ds => if ds ≠ [] && ds.all Char.isDigit then some (digitsToNat ds : Int) else Option.none
  | ds => if ds ≠ [] && ds.all Char.isDigit then some (digitsToNat ds : Int) else Option.none

def isLeapYearZ (y : Int) : Bool := y % 4 = 0 && (y % 100 ≠ 0 || y % 400 = 0)

/-- `calendar.monthrange` day count for possibly negative years. -/
def daysInMonthZ (y : Int) (m : Nat) : Nat :=
  if m = 2 then (if isLeapYearZ y then 29 else 28)
  else if m = 4 || m = 6 || m = 9 || m = 11 then 30
  else 31

/-- `_generate_date_patterns(month_num, year)`; `none` models the
uncaught `ValueError` of `int(year)` on a non-numeric year string. -/
def generate_date_patterns (month_num : Nat) (year : Str) : Option (List Str) :=
  match pyIntOfStr year with
  | Option.none => Option.none
  | some yz =>
    let ma := toLowerStr (monthAbbr month_num)
    let mn := toLowerStr (monthName month_num)
    let base : List Str := [
      pad2 month_num ++ "/".data ++ year,
      natToStr month_num ++ "/".data ++ year,
      year ++ "-".data ++ pad2 month_num,
      ma ++ " ".data ++ year,
      mn ++ " ".data ++ year,
      ma ++ ".".data ++ year,
      pad2 month_num ++ ".".data ++ year]
    let dim := daysInMonthZ yz month_num
    let days := List.range' 1 (min (dim + 1) 32 - 1)
    some (base ++ days.foldl (fun acc d => acc ++ [
      pad2 d ++ "/".data ++ pad2 month_num ++ "/".data ++ year,
      natToStr d ++ "/".data ++ natToStr month_num ++ "/".data ++ year,
      year ++ "-".data ++ pad2 month_num ++ "-".data ++ pad2 d,
      pad2 d ++ ".".data ++ pad2 month_num ++ ".".data ++ year]) [])

/-- The twelve `strftime` renderings per day in `_generate_date_range_patterns`. -/
def dayPatterns (dt : Date) : List Str :=
  let dd := pad2 dt.day
  let mm := pad2 dt.month
  let yyyy := pad4 dt.year
  let bFull := monthName dt.month
  let bAbbr := monthAbbr dt.month
  [dd ++ "/".data ++ mm ++ "/".data ++ yyyy,
   dd ++ "-".data ++ mm ++ "-".data ++ yyyy,
   dd ++ ".".data ++ mm ++ ".".data ++ yyyy,
   yyyy ++ "-".data ++ mm ++ "-".data ++ dd,
   dd ++ " ".data ++ bFull ++ " ".data ++ yyyy,
   dd ++ " ".data ++ bAbbr ++ " ".data ++ yyyy,
   bFull ++ " ".data ++ dd ++ ", ".data ++ yyyy,
   bAbbr ++ " ".data ++ dd ++ ", ".data ++ yyyy,
   dd ++ "-".data ++ bAbbr ++ "-".data ++ yyyy,
   dd ++ "-".data ++ bFull ++ "-".data ++ yyyy,
   bAbbr ++ "-".data ++ dd ++ "-".data ++ yyyy,
   bFull ++ "-".data ++ dd ++ "-".data ++ yyyy]

/-- The day loop of `_generate_date_range_patterns`: extend, step one day,
break above 1000 patterns.  Each iteration adds exactly 12 patterns, so the
break fires within 84 iterations whenever the date bound does not stop the
loop first; the fuel of 90 passed below therefore never runs out. -/
def rangePatternsAux : Nat → Date → Date → List Str → List Str
  | 0, _, _, acc => acc
  | fuel + 1, cur, e, acc =>
    if dateLe cur e then
      let acc2 := acc ++ dayPatterns cur
      if acc2.length > 1000 then acc2
      else rangePatternsAux fuel (nextDay cur) e acc2
    else acc

/-- `_generate_date_range_patterns(start_dt, end_dt)`. -/
def generate_date_range_patterns (start_dt end_dt : Date) : List Str :=
  rangePatternsAux 90 start_dt end_dt []

/-- The `date_keywords` list of `_has_relevant_dates`. -/
def dateKeywords : List Str :=
  ["date".data, "invoice date".data, "transaction date".data, "bill date".data,
   "dated".data, "invoice no".data, "receipt date".data, "payment date".data,
   "due date".data, "issued on".data, "generated on".data, "created on".data,
   "timestamp".data]

/-- `_has_relevant_dates(chunk, date_patterns)`: any of the first 20 patterns
as a lower-cased substring, or any regex-extractable date, or any date
keyword. -/
def has_relevant_dates (chunk : Str) (date_patterns : List Str) : Bool :=
  let cl := toLowerStr chunk
  (date_patterns.take 20).any (fun p => containsSub (toLowerStr p) cl) ||
  !(extract_all_dates_from_chunk chunk).isEmpty ||
  dateKeywords.any (fun k => containsSub k cl)

/-- One entry of the model's parsed JSON `filtered_results` array:
`chunk_index` and the `contains_filing_period_dates` /
`contains_date_range_dates` flag (via `.get(..., False)`). -/
structure AiEntry where
  chunk_index : Int
  containsDates : Bool
deriving DecidableEq, Repr

/-- The dictionary returned by `filter_chunks_by_period` and the two AI
filtering helpers (`ai_analysis` carries the parsed model entries when the
AI branch succeeded). -/
structure FilterRes where
  filtered_chunks : List Nat
  filing_period : Str
  total_original_chunks : Nat
  total_filtered_chunks : Nat
  ai_analysis : Option (List AiEntry)
  notes : Str
deriving DecidableEq, Repr

/-- Outcome of `filter_chunks_by_period`: a structured `{"error": ...}` value,
an uncaught exception, or a result dictionary. -/
inductive FilterOutcome where
  | perr (msg : Str)
  | raised (e : PyErr)
  | result (r : FilterRes)
deriving DecidableEq, Repr

/-- Python list indexing with negative-index wrap-around (`xs[i]`),
`none` on `IndexError`. -/
def pyListGet (xs : List (Nat × Str)) (i : Int) : Option (Nat × Str) :=
  if 0 ≤ i then xs.get? i.toNat
  else if 0 ≤ i + xs.length then xs.get? (i + xs.length).toNat
  else Option.none

/-- The response-processing loop of `_ai_date_filtering`: for each entry with
a truthy flag, take `relevant_chunks[result_idx][0]` when
`result_idx < len(relevant_chunks)`; an `IndexError` (too-negative index)
aborts the whole `try` block (`none`). -/
def collectIndices (relevant : List (Nat × Str)) : List AiEntry → Option (List Nat)
  | [] => some []
  | e :: rest =>
    if e.containsDates then
      if e.chunk_index < (relevant.length : Int) then
        match pyListGet relevant e.chunk_index with
        | some p => (collectIndices relevant rest).map (p.1 :: ·)
        | Option.none => Option.none
      else collectIndices relevant rest
    else collectIndices relevant rest

/-- The local-parsing test of `_ai_date_filtering`'s pre-filter: some
extracted date parses into the filing month/year
(`parsed.strftime('%B').lower() == filing_month.lower()` and
`str(parsed.year) == filing_year`). -/
def monthMatches (fm fy : Str) (ds : Str) : Bool :=
  match parse_date_flexible ds with
  | some d => toLowerStr (monthName d.month) = toLowerStr fm && natToStr d.year = fy
  | Option.none => false

/-- `_ai_date_filtering(relevant_chunks, filing_month, filing_year)`, with the
model call abstracted as `oracle` (`none`: the call raised, or its response
contained no parseable JSON object). -/
def ai_date_filtering (oracle : Option (List AiEntry)) (relevant : List (Nat × Str))
    (fm fy : Str) : FilterOutcome :=
  let pre := relevant.filter (fun p => (extract_all_dates_from_chunk p.2).any (monthMatches fm fy))
  let period := fm ++ " ".data ++ fy
  if !pre.isEmpty then
    .result ⟨pre.map Prod.fst, period, relevant.length, pre.length, Option.none,
      "Pre-filtered ".data ++ natToStr pre.length ++
        " chunks using local date parsing for ".data ++ period⟩
  else
    match oracle.bind (collectIndices relevant) with
    | some idxs =>
      .result ⟨idxs, period, relevant.length, idxs.length, oracle,
        "AI filtered ".data ++ natToStr idxs.length ++ " chunks for ".data ++ period⟩
    | Option.none =>
      .result ⟨relevant.map Prod.fst, period, relevant.length, relevant.length, Option.none,
        "Fallback: returned all ".data ++ natToStr relevant.length ++
          " potentially relevant chunks".data⟩

/-- The range version of the pre-filter test. -/
def rangeMatches (sd ed : Str) (ds : Str) : Bool :=
  match parse_date_flexible ds with
  | some d => is_date_in_range d sd ed
  | Option.none => false

/-- `_ai_date_range_filtering(relevant_chunks, start_date, end_date)`. -/
def ai_date_range_filtering (oracle : Option (List AiEntry)) (relevant : List (Nat × Str))
    (sd ed : Str) : FilterOutcome :=
  let pre := relevant.filter (fun p => (extract_all_dates_from_chunk p.2).any (rangeMatches sd ed))
  let period := sd ++ " to ".data ++ ed
  if !pre.isEmpty then
    .result ⟨pre.map Prod.fst, period, relevant.length, pre.length, Option.none,
      "Pre-filtered ".data ++ natToStr pre.length ++
        " chunks using local date parsing for range ".data ++ period⟩
  else
    match oracle.bind (collectIndices relevant) with
    | some idxs =>
      .result ⟨idxs, period, relevant.length, idxs.length, oracle,
        "AI filtered ".data ++ natToStr idxs.length ++ " chunks for date range ".data ++ period⟩
    | Option.none =>
      .result ⟨relevant.map Prod.fst, period, relevant.length, relevant.length, Option.none,
        "Fallback: returned all ".data ++ natToStr relevant.length ++
          " potentially relevant chunks for date range".data⟩

/-- Truthiness of an optional string parameter (Python default `None`, empty
strings falsy). -/
def optTruthy (o : Option Str) : Bool :=
  match o with
  | some s => !s.isEmpty
  | Option.none => false

/-- The `Step 1` screen of `filter_chunks_by_period`: enumerate and keep the
chunks with date evidence. -/
def screenChunks (chunks : List Str) (pats : List Str) : List (Nat × Str) :=
  chunks.enum.filter (fun p => has_relevant_dates p.2 pats)

/-- `filter_chunks_by_period(chunks, filing_month, filing_year, start_date,
end_date)`.  Mode dispatch, parameter validation, pattern generation, keyword
screen, then local-parse-first AI filtering; the `...format: {e}` error
message elides the exception text. -/
def filter_chunks_by_period (oracle : Option (List AiEntry)) (chunks : List Str)
    (filing_month filing_year start_date end_date : Option Str) : FilterOutcome :=
  if optTruthy start_date && optTruthy end_date then
    let sd := start_date.getD []
    let ed := end_date.getD []
    let handle : Option (Date × Date) → FilterOutcome := fun parsed =>
      match parsed with
      | some (sdt, edt) =>
        let pats := generate_date_range_patterns sdt edt
        let desc := sd ++ " to ".data ++ ed
        let relevant := screenChunks chunks pats
        if relevant.isEmpty then
          .result ⟨[], desc, chunks.length, 0, Option.none,
            "No transactions found for ".data ++ desc⟩
        else ai_date_range_filtering oracle relevant sd ed
      | Option.none =>
        .perr ("Invalid date format. Use YYYY-MM-DD or DD/MM/YYYY format: ".data)
    if sd.contains '-' then
      handle (match strptimeYmd sd, strptimeYmd ed with
        | some a, some b => some (a, b)
        | _, _ => Option.none)
    else if sd.contains '/' then
      handle (match strptimeDmySlash sd, strptimeDmySlash ed with
        | some a, some b => some (a, b)
        | _, _ => Option.none)
    else .perr "Invalid date format. Use YYYY-MM-DD or DD/MM/YYYY format".data
  else if optTruthy filing_month && optTruthy filing_year then
    let fm := filing_month.getD []
    let fy := filing_year.getD []
    match month_name_to_number fm with
    | Option.none => .perr ("Invalid month: ".data ++ fm)
    | some mn =>
      match generate_date_patterns mn fy with
      | Option.none => .raised .valueError
      | some pats =>
        let desc := fm ++ " ".data ++ fy
        let relevant := screenChunks chunks pats
        if relevant.isEmpty then
          .result ⟨[], desc, chunks.length, 0, Option.none,
            "No transactions found for ".data ++ desc⟩
        else ai_date_filtering oracle relevant fm fy
  else .perr "Either provide filing_month + filing_year OR start_date + end_date".data

/-!
## `CategorizationAgent._keyword_filter`
(`server/agents/categorization_agent.py`, lines 24-105)
-/

inductive KCat where
  | gstr1
  | gstr2
  | ambiguous
  | irrelevant
deriving DecidableEq, Repr

inductive KMethod where
  | keyword_strong
  | keyword
  | llm
  | fallback
deriving DecidableEq, Repr

/-- One chunk's classification result. -/
structure KFResult where
  chunk_index : Nat
  category : KCat
  confidence : ℚ
  detected_data_types : List Str
  method : KMethod
deriving DecidableEq, Repr

/-- `gstr1_keywords` (outward supplies). -/
def gstr1Keywords : List Str :=
  ["sale".data, "sold".data, "selling".data, "outward supply".data, "supply made".data,
   "supply to".data, "customer".data, "buyer".data, "gstin of recipient".data, "sold to".data,
   "place of supply".data, "sales invoice".data, "invoice to".data, "billed to".data,
   "delivered to".data, "shipped to".data, "consignee".data, "b2b supply".data,
   "b2c supply".data, "tax invoice".data, "original for recipient".data, "invoice original".data]

/-- `gstr2_keywords` (inward supplies). -/
def gstr2Keywords : List Str :=
  ["purchase".data, "purchased".data, "buying".data, "procurement".data, "inward supply".data,
   "supply received".data, "input tax credit".data, "itc".data, "vendor".data, "supplier".data,
   "gstin of supplier".data, "reverse charge".data, "import".data, "customs".data,
   "bill of entry".data, "purchase invoice".data, "from supplier".data, "received from".data,
   "bought from".data, "procured from".data, "invoice from".data, "billed by".data,
   "supplied by".data, "vendor invoice".data, "gstr-2".data, "gstr2".data,
   "inward supply invoice".data]

/-- `_keyword_filter(chunk, chunk_index)`.  (The source also defines a
`common_keywords` list that its logic never reads; it is omitted.) -/
def keyword_filter (chunk : Str) (chunk_index : Nat) : KFResult :=
  let cl := toLowerStr chunk
  let gstr1_score := (gstr1Keywords.filter (fun k => containsSub k cl)).length
  let gstr2_score := (gstr2Keywords.filter (fun k => containsSub k cl)).length
  if containsSub "tax invoice".data cl || containsSub "original for recipient".data cl then
    ⟨chunk_index, .gstr1, 9/10, ["outward_supply".data], .keyword_strong⟩
  else if containsSub "gstr-2".data cl || containsSub "gstr2".data cl ||
          containsSub "inward supply invoice".data cl then
    ⟨chunk_index, .gstr2, 9/10, ["inward_supply".data], .keyword_strong⟩
  else if gstr2_score > gstr1_score && gstr2_score ≥ 1 then
    ⟨chunk_index, .gstr2, min (8/10) (5/10 + (gstr2_score : ℚ) * (1/10)),
     if containsSub "purchase".data cl then ["purchase".data] else ["inward_supply".data],
     .keyword⟩
  else if gstr1_score > gstr2_score && gstr1_score ≥ 1 then
    ⟨chunk_index, .gstr1, min (8/10) (5/10 + (gstr1_score : ℚ) * (1/10)),
     if containsSub "sale".data cl || containsSub "sold".data cl
     then ["sale".data] else ["outward_supply".data],
     .keyword⟩
  else if gstr1_score = gstr2_score && (gstr1_score > 0 || gstr2_score > 0) then
    ⟨chunk_index, .ambiguous, 4/10, [], .keyword⟩
  else
    ⟨chunk_index, .irrelevant, 9/10, [], .keyword⟩

/-!
## `DocumentUseCase.create_chunks`
(`server/usecases/document_usecase.py`, lines 86-141)

Chunk identity fields that are pure I/O side-data (uuid, document id,
creation time) are omitted; `chunk_index`, `content`, `chunk_size` and
`overlap_size` are kept.
-/

structure ChunkRec where
  chunk_index : Nat
  content : Str
  chunk_size : Nat
  overlap_size : Nat
deriving DecidableEq, Repr

/-- Python slice `s[a:b]` with clamping and negative-index wrap-around. -/
def pySlice (s : Str) (a b : Int) : Str :=
  let n := (s.length : Int)
  let a2 := if a < 0 then max (n + a) 0 else min a n
  let b2 := if b < 0 then max (n + b) 0 else min b n
  if a2 < b2 then (s.take b2.toNat).drop a2.toNat else []

/-- Python `str.rfind(c)`: last index of `c`, or `-1`. -/
def rfindIdx (s : Str) (c : Char) : Int :=
  match s.reverse.findIdx? (fun x => x = c) with
  | some i => ((s.length - 1 - i : Nat) : Int)
  | Option.none => -1

/-- The `while start < len(content)` loop of `create_chunks`, including the
sentence-boundary adjustment (whose `break_point` — an index relative to the
window — is compared against the absolute position `start + chunk_size // 2`,
exactly as in the source).  The fuel bounds the iteration count; the caller
passes `len(content) + 1`, which is ample whenever each step advances
(`overlap < chunk_size`), and no claim below concerns the loop. -/
def chunkLoop (content : Str) (chunk_size overlap : Nat) :
    Nat → Int → Nat → List ChunkRec
  | 0, _, _ => []
  | fuel + 1, start, idx =>
    if start < (content.length : Int) then
      let en := start + (chunk_size : Int)
      let cc := pySlice content start en
      let adjusted : Str × Int :=
        if en < (content.length : Int) then
          let bp := max (rfindIdx cc '.') (rfindIdx cc '\n')
          if bp > start + ((chunk_size / 2 : Nat) : Int) then
            (pySlice content start (start + bp + 1), start + bp + 1)
          else (cc, en)
        else (cc, en)
      ⟨idx, pyStrip adjusted.1, adjusted.1.length, if idx > 0 then overlap else 0⟩ ::
        chunkLoop content chunk_size overlap fuel (adjusted.2 - overlap) (idx + 1)
    else []

/-- `create_chunks(document, chunk_size, overlap)` (defaults 1500 / 200):
empty content gives no chunks; content no longer than `chunk_size` gives a
single chunk holding the content unmodified; otherwise the window loop. -/
def create_chunks (content : Str) (chunk_size overlap : Nat) : List ChunkRec :=
  if content.isEmpty then []
  else if content.length ≤ chunk_size then
    [⟨0, content, content.length, 0⟩]
  else chunkLoop content chunk_size overlap (content.length + 1) 0 0

/-!
## Theorems

Shared helper lemmas first, then one theorem per claim (with witnesses and
counterexamples where applicable).
-/

theorem dropWhile_eq_self_of_head (p : Char → Bool) (l : Str)
    (h : ∀ c, l.head? = some c → p c = false) : l.dropWhile p = l := by
  cases l with
  | nil => rfl
  | cons c rest => simp [List.dropWhile_cons, h c rfl]

theorem head?_dropWhile_false (p : Char → Bool) (l : Str) :
    ∀ c, (l.dropWhile p).head? = some c → p c = false := by
  induction l with
  | nil => simp
  | cons a rest ih =>
    intro c h
    by_cases hp : p a
    · rw [List.dropWhile_cons_of_pos hp] at h
      exact ih c h
    · rw [List.dropWhile_cons_of_neg hp] at h
      simp only [List.head?_cons, Option.some.injEq] at h
      subst h
      simpa using hp

theorem pyStrip_eq_rdrop (s : Str) :
    pyStrip s = List.rdropWhile isPySpace (List.dropWhile isPySpace s) := by
  simp [pyStrip, List.rdropWhile]

/-- `str.strip()` is idempotent. -/
theorem pyStrip_idem (s : Str) : pyStrip (pyStrip s) = pyStrip s := by
  rw [pyStrip_eq_rdrop, pyStrip_eq_rdrop]
  obtain ⟨t, ht⟩ :=
    List.rdropWhile_prefix (p := isPySpace) (l := List.dropWhile isPySpace s)
  have h1 : List.dropWhile isPySpace
      (List.rdropWhile isPySpace (List.dropWhile isPySpace s)) =
      List.rdropWhile isPySpace (List.dropWhile isPySpace s) := by
    apply dropWhile_eq_self_of_head
    intro c hc
    apply head?_dropWhile_false isPySpace s c
    cases hR : List.rdropWhile isPySpace (List.dropWhile isPySpace s) with
    | nil => rw [hR] at hc; simp at hc
    | cons r0 R2 =>
      rw [hR] at hc ht
      simp only [List.head?_cons, Option.some.injEq] at hc
      subst hc
      rw [← ht]
      rfl
  rw [h1, List.rdropWhile_idempotent]

/-- Claim C7: a chunk whose lower-cased text contains the phrase
`tax invoice` (and no inward keyword) is classified by `_keyword_filter` as
outward (`gstr1`) with confidence exactly 0.9 and method `keyword_strong`,
purely by the keyword short-circuit — the result does not depend on the
keyword scores, and no model call is involved (`keyword_filter` is a pure
function). -/
theorem C7_keyword_strong_tax_invoice (chunk : Str) (i : Nat)
    (h1 : containsSub "tax invoice".data (toLowerStr chunk) = true)
    (h2 : ∀ k ∈ gstr2Keywords, containsSub k (toLowerStr chunk) = false) :
    keyword_filter chunk i =
      ⟨i, .gstr1, 9/10, ["outward_supply".data], .keyword_strong⟩ := by
  simp [keyword_filter, h1]

theorem C7_keyword_strong_tax_invoice_witness :
    containsSub "tax invoice".data (toLowerStr "Original TAX INVOICE no. 17".data) = true ∧
    keyword_filter "Original TAX INVOICE no. 17".data 3 =
      ⟨3, .gstr1, 9/10, ["outward_supply".data], .keyword_strong⟩ :=
  ⟨by decide, C7_keyword_strong_tax_invoice _ 3 (by decide) (by decide)⟩

/-- Claim C8 (counterexample): for the two-character text `"a "` (shorter
than the default `chunk_size` 1500) the single produced chunk's content is
the input text unmodified, not the whitespace-stripped input — the
single-chunk branch of `create_chunks` performs no `strip()`. -/
theorem C8_counterexample_no_strip :
    (create_chunks "a ".data 1500 200).map (fun c => c.content) ≠
      [pyStrip "a ".data] := by
  decide

/-- Claim C8 (amended): for non-empty text of length at most `chunk_size`,
`create_chunks` produces exactly one chunk whose content equals the input
text unmodified (the source strips only in the multi-chunk loop); empty text
produces no chunks at all. -/
theorem C8_single_chunk_unstripped :
    (∀ (content : Str) (cs ov : Nat), content ≠ [] → content.length ≤ cs →
      create_chunks content cs ov = [⟨0, content, content.length, 0⟩]) ∧
    (∀ (cs ov : Nat), create_chunks [] cs ov = []) := by
  constructor
  · intro content cs ov h1 h2
    simp [create_chunks, h1, h2]
  · intro cs ov
    rfl

theorem C8_single_chunk_unstripped_witness :
    ("a b".data ≠ [] ∧ "a b".data.length ≤ 1500) ∧
    create_chunks "a b".data 1500 200 = [⟨0, "a b".data, 3, 0⟩] :=
  ⟨by decide, C8_single_chunk_unstripped.1 "a b".data 1500 200 (by decide) (by decide)⟩

/-- Claim C3 (counterexample): for the single chunk `15/03/2024` and target
period April 2024, the chunk is NOT excluded by local parsing alone: the
keyword screen keeps it as date-bearing, the local pre-filter finds no April
date, and the filter falls through to the model call — with a failing model
call (oracle `none`) the fallback returns the chunk, so it is retained, not
excluded. -/
theorem C3_counterexample_april_needs_model :
    filter_chunks_by_period Option.none ["15/03/2024".data] (some "April".data)
        (some "2024".data) Option.none Option.none =
      .result ⟨[0], "April 2024".data, 1, 1, Option.none,
        "Fallback: returned all 1 potentially relevant chunks".data⟩ := by
  rfl

/-- Claim C3 (amended): for the chunk `15/03/2024`, (1) filtering for March
2024 retains the chunk by local date parsing, with the same result for every
model oracle (no model call can influence it); (2) filtering for April 2024
reaches the model call: when the call fails the chunk is returned
unfiltered, and (3) it is excluded exactly when the model's response
excludes it. -/
theorem C3_march_local_april_model_dependent :
    (∀ oracle : Option (List AiEntry),
      filter_chunks_by_period oracle ["15/03/2024".data] (some "March".data)
          (some "2024".data) Option.none Option.none =
        .result ⟨[0], "March 2024".data, 1, 1, Option.none,
          "Pre-filtered 1 chunks using local date parsing for March 2024".data⟩) ∧
    (filter_chunks_by_period Option.none ["15/03/2024".data] (some "April".data)
        (some "2024".data) Option.none Option.none =
      .result ⟨[0], "April 2024".data, 1, 1, Option.none,
        "Fallback: returned all 1 potentially relevant chunks".data⟩) ∧
    (filter_chunks_by_period (some [⟨0, false⟩]) ["15/03/2024".data] (some "April".data)
        (some "2024".data) Option.none Option.none =
      .result ⟨[], "April 2024".data, 1, 0, some [⟨0, false⟩],
        "AI filtered 0 chunks for April 2024".data⟩) := by
  refine ⟨fun oracle => ?_, rfl, rfl⟩
  rfl

/-- Claim C5 (counterexample): supplying BOTH period modes simultaneously
(March 2024 and the range 01/03/2024-31/03/2024, with an empty chunk list)
does not produce a parameter-error value: the filter silently proceeds in
range mode and returns an ordinary result dictionary. -/
theorem C5_counterexample_both_modes :
    filter_chunks_by_period Option.none [] (some "March".data) (some "2024".data)
        (some "01/03/2024".data) (some "31/03/2024".data) =
      .result ⟨[], "01/03/2024 to 31/03/2024".data, 0, 0, Option.none,
        "No transactions found for 01/03/2024 to 31/03/2024".data⟩ := by
  rfl

/-- Claim C5 (amended): when NEITHER mode is fully supplied,
`filter_chunks_by_period` returns the structured parameter-error value and
performs no filtering; but when both modes are supplied simultaneously the
range mode silently takes precedence (the month/year arguments are ignored)
— there is no mutual-exclusion error. -/
theorem C5_param_validation :
    (∀ (oracle : Option (List AiEntry)) (chunks : List Str) (fm fy sd ed : Option Str),
      (optTruthy sd && optTruthy ed) = false →
      (optTruthy fm && optTruthy fy) = false →
      filter_chunks_by_period oracle chunks fm fy sd ed =
        .perr "Either provide filing_month + filing_year OR start_date + end_date".data) ∧
    (∀ (oracle : Option (List AiEntry)) (chunks : List Str) (fm fy sd ed : Option Str),
      (optTruthy sd && optTruthy ed) = true →
      filter_chunks_by_period oracle chunks fm fy sd ed =
        filter_chunks_by_period oracle chunks Option.none Option.none sd ed) := by
  constructor
  · intro oracle chunks fm fy sd ed h1 h2
    simp [filter_chunks_by_period, h1, h2]
  · intro oracle chunks fm fy sd ed h
    simp [filter_chunks_by_period, h]

theorem C5_param_validation_witness :
    ((optTruthy Option.none && optTruthy Option.none) = false ∧
      filter_chunks_by_period Option.none ["x".data] Option.none Option.none
          Option.none Option.none =
        .perr "Either provide filing_month + filing_year OR start_date + end_date".data) ∧
    ((optTruthy (some "01/03/2024".data) && optTruthy (some "31/03/2024".data)) = true ∧
      filter_chunks_by_period Option.none [] (some "March".data) (some "2024".data)
          (some "01/03/2024".data) (some "31/03/2024".data) =
        filter_chunks_by_period Option.none [] Option.none Option.none
          (some "01/03/2024".data) (some "31/03/2024".data)) :=
  ⟨⟨by decide, C5_param_validation.1 Option.none ["x".data] Option.none Option.none
      Option.none Option.none (by decide) (by decide)⟩,
   ⟨by decide, C5_param_validation.2 Option.none [] (some "March".data) (some "2024".data)
      (some "01/03/2024".data) (some "31/03/2024".data) (by decide)⟩⟩

theorem vrecGet_gstin (r : VRec) :
    dictGet (vrecKvs r) "recipient_gstin".data (.str []) = .str r.recipient_gstin := rfl

theorem vrecGet_value (r : VRec) :
    dictGet (vrecKvs r) "invoice_value".data (.num 0) = .num r.invoice_value := rfl

/-- Evaluation of the categorizer's per-invoice rule on a validated invoice:
the bucket is `B2B` exactly when the stripped GSTIN is non-empty, not a
lower-cased null marker, and 15 characters long; otherwise the 250000
threshold decides. -/
theorem categorizeOne_vrec (r : VRec) :
    (categorizeOne (vrecToDict r)).map Prod.snd = .ok
      (if (!(pyStrip r.recipient_gstin).isEmpty &&
           !gstinNullMarkers.contains (toLowerStr (pyStrip r.recipient_gstin)) &&
           decide ((pyStrip r.recipient_gstin).length = 15))
       then GstCat.b2b
       else if r.invoice_value > 250000 then GstCat.b2cl else GstCat.b2cs) := by
  have hv : vrecToDict r = .dict (vrecKvs r) := rfl
  rw [hv]
  simp only [categorizeOne]
  rw [vrecGet_gstin, vrecGet_value]
  have hgeq : (if pyTruthy (PyVal.str r.recipient_gstin) = true
      then PyVal.str (pyStrip (pyToStr (PyVal.str r.recipient_gstin)))
      else PyVal.str r.recipient_gstin) = PyVal.str (pyStrip r.recipient_gstin) := by
    cases hgs : r.recipient_gstin <;> rfl
  rw [hgeq]
  simp only [pyFloat]
  by_cases hb : (!(pyStrip r.recipient_gstin).isEmpty &&
      !gstinNullMarkers.contains (toLowerStr (pyStrip r.recipient_gstin)) &&
      decide ((pyStrip r.recipient_gstin).length = 15)) = true
  · simp only [hb]
    rfl
  · rw [Bool.not_eq_true] at hb
    simp only [hb]
    by_cases hvv : r.invoice_value > 250000
    · simp only [hvv, if_true, if_pos hvv]
      rfl
    · simp only [if_neg hvv]
      rfl

/-- Claim C1: for every validated invoice processed by the categorizer — if
the trimmed recipient GSTIN is non-empty, not a null-marker string, and
exactly 15 characters, the invoice is tagged for the registered (B2B) bucket
regardless of value; otherwise a value strictly above 250000 goes to the
large-unregistered (B2CL) bucket and a value at most 250000 (inclusive) to
the small-unregistered (B2CS) bucket. -/
theorem C1_categorizer_buckets (r : VRec) :
    (pyStrip r.recipient_gstin ≠ [] →
      gstinNullMarkers.contains (toLowerStr (pyStrip r.recipient_gstin)) = false →
      (pyStrip r.recipient_gstin).length = 15 →
      (categorizeOne (vrecToDict r)).map Prod.snd = .ok GstCat.b2b) ∧
    ((pyStrip r.recipient_gstin = [] ∨
      gstinNullMarkers.contains (toLowerStr (pyStrip r.recipient_gstin)) = true ∨
      (pyStrip r.recipient_gstin).length ≠ 15) →
      ((250000 < r.invoice_value →
        (categorizeOne (vrecToDict r)).map Prod.snd = .ok GstCat.b2cl) ∧
       (r.invoice_value ≤ 250000 →
        (categorizeOne (vrecToDict r)).map Prod.snd = .ok GstCat.b2cs))) := by
  constructor
  · intro h1 h2 h3
    rw [categorizeOne_vrec]
    rw [h2, h3]
    simp [h1]
  · intro hdisj
    have hg : (!(pyStrip r.recipient_gstin).isEmpty &&
        !gstinNullMarkers.contains (toLowerStr (pyStrip r.recipient_gstin)) &&
        decide ((pyStrip r.recipient_gstin).length = 15)) = false := by
      rcases hdisj with h | h | h
      · simp [h]
      · have hmem : toLowerStr (pyStrip r.recipient_gstin) ∈ gstinNullMarkers := by
          simpa using h
        simp [hmem]
      · simp [h]
    constructor
    · intro hval
      rw [categorizeOne_vrec, hg]
      simp [hval]
    · intro hval
      rw [categorizeOne_vrec, hg]
      simp only [Bool.false_eq_true, if_false]
      have : ¬ (250000 : ℚ) < r.invoice_value := not_lt.mpr hval
      simp [this]

theorem C1_categorizer_buckets_witness :
    (pyStrip "07ABCDE0001F1ZQ".data ≠ [] ∧
      (categorizeOne (vrecToDict ⟨"B2B-001".data, "07ABCDE0001F1ZQ".data, [],
          some "2025-08-24".data, 19606, 0, 0, 0, 0, 0, [], []⟩)).map Prod.snd =
        .ok GstCat.b2b) ∧
    ((250000 : ℚ) < 250001 ∧
      (categorizeOne (vrecToDict ⟨"A1".data, [], [], Option.none,
          250001, 0, 0, 0, 0, 0, [], []⟩)).map Prod.snd = .ok GstCat.b2cl) ∧
    ((250000 : ℚ) ≥ 250000 ∧
      (categorizeOne (vrecToDict ⟨"A2".data, [], [], Option.none,
          250000, 0, 0, 0, 0, 0, [], []⟩)).map Prod.snd = .ok GstCat.b2cs) :=
  ⟨⟨by decide,
    (C1_categorizer_buckets _).1 (by decide) (by decide) (by decide)⟩,
   ⟨by norm_num,
    ((C1_categorizer_buckets _).2 (Or.inl (by decide))).1 (by norm_num)⟩,
   ⟨by norm_num,
    ((C1_categorizer_buckets _).2 (Or.inl (by decide))).2 (by norm_num)⟩⟩

theorem toNat_toUpper_of_lower (c : Char) (h : 97 ≤ c.toNat ∧ c.toNat ≤ 122) :
    (Char.toUpper c).toNat = c.toNat - 32 := by
  rw [Char.toUpper]
  simp only [if_pos h]
  have hv : (c.toNat - 32).isValidChar := by
    unfold Nat.isValidChar
    left
    omega
  rw [Char.ofNat, dif_pos hv]
  rfl

theorem keep_toUpper (c : Char) :
    (fun x => !(x = '-' || isPySpace x || x = '/' || x = '\\')) (Char.toUpper c) =
    (fun x => !(x = '-' || isPySpace x || x = '/' || x = '\\')) c := by
  have f1 : ∀ (d : Char) (k : Nat), d.toNat = k →
      ((65 ≤ k ∧ k ≤ 90) ∨ (97 ≤ k ∧ k ≤ 122)) →
      (!(d = '-' || isPySpace d || d = '/' || d = '\\')) = true := by
    intro d k hd hk
    have hneq : ∀ (e : Char) (m : Nat), e.toNat = m →
        ((m < 65 ∨ 90 < m) ∧ (m < 97 ∨ 122 < m)) → d ≠ e := by
      intro e m hm hrange heq
      have h2 := congrArg Char.toNat heq
      omega
    have l1 : d ≠ '-' := hneq '-' 45 (by decide) (by omega)
    have l2 : d ≠ ' ' := hneq ' ' 32 (by decide) (by omega)
    have l3 : d ≠ '\t' := hneq '\t' 9 (by decide) (by omega)
    have l4 : d ≠ '\n' := hneq '\n' 10 (by decide) (by omega)
    have l5 : d ≠ '\r' := hneq '\r' 13 (by decide) (by omega)
    have l6 : d ≠ '\x0b' := hneq '\x0b' 11 (by decide) (by omega)
    have l7 : d ≠ '\x0c' := hneq '\x0c' 12 (by decide) (by omega)
    have l8 : d ≠ '/' := hneq '/' 47 (by decide) (by omega)
    have l9 : d ≠ '\\' := hneq '\\' 92 (by decide) (by omega)
    simp [isPySpace, l1, l2, l3, l4, l5, l6, l7, l8, l9]
  by_cases h : 97 ≤ c.toNat ∧ c.toNat ≤ 122
  · have hup := toNat_toUpper_of_lower c h
    simp only []
    rw [f1 (Char.toUpper c) (c.toNat - 32) hup (by omega),
        f1 c c.toNat rfl (by omega)]
  · have heq : Char.toUpper c = c := by
      rw [Char.toUpper]
      simp only [if_neg h]
    rw [heq]

theorem vrecGet_no (r : VRec) :
    dictGet (vrecKvs r) "invoice_no".data (.str []) = .str r.invoice_no := rfl

theorem vrecGet_date (r : VRec) :
    dictGet (vrecKvs r) "invoice_date".data (.str []) =
      (match r.invoice_date with | some s => .str s | Option.none => .none) := rfl

theorem normalize_str (s : Str) :
    normalize_invoice_number (.str s) =
      (toUpperStr s).filter (fun c => !(c = '-' || isPySpace c || c = '/' || c = '\\')) := by
  cases s with
  | nil => rfl
  | cons c cs => rfl

theorem normalize_eq_of_filter (a b : Str)
    (h : a.filter (fun c => !(c = '-' || isPySpace c || c = '/' || c = '\\')) =
         b.filter (fun c => !(c = '-' || isPySpace c || c = '/' || c = '\\'))) :
    normalize_invoice_number (.str a) = normalize_invoice_number (.str b) := by
  rw [normalize_str, normalize_str]
  have key : ∀ x : Str,
      (toUpperStr x).filter (fun c => !(c = '-' || isPySpace c || c = '/' || c = '\\')) =
      (x.filter (fun c => !(c = '-' || isPySpace c || c = '/' || c = '\\'))).map Char.toUpper := by
    intro x
    rw [toUpperStr, List.filter_map]
    congr 1
    apply List.filter_congr
    intro c _
    exact keep_toUpper c
  rw [key, key, h]

theorem get_key_vrec_b2b (u : Str) (r : VRec)
    (h15 : (pyStrip r.recipient_gstin).length = 15) :
    get_duplicate_key (vrecToDict r) u = .ok
      ("B2B_".data ++ u ++ "_".data ++ pyStrip r.recipient_gstin ++ "_".data ++
       normalize_invoice_number (.str r.invoice_no) ++ "_".data ++
       (match r.invoice_date with | some s => s | Option.none => "None".data)) := by
  have hv : vrecToDict r = .dict (vrecKvs r) := rfl
  rw [hv]
  simp only [get_duplicate_key]
  rw [vrecGet_gstin, vrecGet_no, vrecGet_date]
  have hne : r.recipient_gstin ≠ [] := by
    intro h
    rw [h] at h15
    simp [pyStrip] at h15
  have htr : pyTruthy (PyVal.str r.recipient_gstin) = true := by
    simp [pyTruthy, hne]
  rw [htr]
  simp only [pyToStr, h15, Bool.true_and, decide_eq_true_eq]
  cases r.invoice_date with
  | none => simp
  | some s => simp

theorem b2b_key_ne (u : Str) (r1 r2 : VRec)
    (h1 : (pyStrip r1.recipient_gstin).length = 15)
    (h2 : (pyStrip r2.recipient_gstin).length = 15)
    (hne : pyStrip r1.recipient_gstin ≠ pyStrip r2.recipient_gstin) :
    get_duplicate_key (vrecToDict r1) u ≠ get_duplicate_key (vrecToDict r2) u := by
  rw [get_key_vrec_b2b u r1 h1, get_key_vrec_b2b u r2 h2]
  intro h
  simp only [Except.ok.injEq, List.append_assoc] at h
  have h3 := (List.append_right_inj _).mp h
  have h4 := (List.append_right_inj _).mp h3
  have h5 := (List.append_right_inj _).mp h4
  have h6 := List.append_inj h5 (by rw [h1, h2])
  exact hne h6.1

theorem exceptBind_ok {e a b : Type} (x : a) (f : a → Except e b) :
    (Except.ok x : Except e a) >>= f = f x := rfl

theorem dedup_two_same (u : Str) (d1 d2 : PyVal) (k : Str)
    (h1 : get_duplicate_key d1 u = .ok k) (h2 : get_duplicate_key d2 u = .ok k) :
    deduplicate_invoices [d1, d2] u = .ok [d1] := by
  simp [deduplicate_invoices, dedupLoop, h1, h2, exceptBind_ok]

theorem dedup_two_diff (u : Str) (d1 d2 : PyVal) (k1 k2 : Str)
    (h1 : get_duplicate_key d1 u = .ok k1) (h2 : get_duplicate_key d2 u = .ok k2)
    (hne : k1 ≠ k2) :
    deduplicate_invoices [d1, d2] u = .ok [d1, d2] := by
  simp [deduplicate_invoices, dedupLoop, h1, h2, exceptBind_ok, (Ne.symm hne)]

theorem dedupLoop_append_dup (u : Str) :
    ∀ (xs : List PyVal) (seen : List Str) (out : List PyVal) (inv : PyVal) (k : Str),
      get_duplicate_key inv u = .ok k →
      (k ∈ seen ∨ ∃ p ∈ xs, get_duplicate_key p u = .ok k) →
      dedupLoop u (xs ++ [inv]) seen out = dedupLoop u xs seen out := by
  intro xs
  induction xs with
  | nil =>
    intro seen out inv k hk hmem
    rcases hmem with hmem | hmem
    · simp [dedupLoop, hk, hmem, exceptBind_ok]
    · simp at hmem
  | cons x rest ih =>
    intro seen out inv k hk hmem
    simp only [List.cons_append, dedupLoop]
    cases hx : get_duplicate_key x u with
    | error e => rfl
    | ok kx =>
      simp only [hx, exceptBind_ok]
      by_cases hks : kx ∈ seen
      · simp only [if_pos hks]
        refine ih seen out inv k hk ?_
        rcases hmem with hm | ⟨p, hp, hkp⟩
        · exact Or.inl hm
        · rcases List.mem_cons.mp hp with rfl | hp2
          · rw [hx] at hkp
            cases hkp
            exact Or.inl hks
          · exact Or.inr ⟨p, hp2, hkp⟩
      · simp only [if_neg hks]
        refine ih (seen ++ [kx]) (out ++ [x]) inv k hk ?_
        rcases hmem with hm | ⟨p, hp, hkp⟩
        · exact Or.inl (List.mem_append_left _ hm)
        · rcases List.mem_cons.mp hp with rfl | hp2
          · rw [hx] at hkp
            cases hkp
            exact Or.inl (List.mem_append_right _ (List.mem_singleton.mpr rfl))
          · exact Or.inr ⟨p, hp2, hkp⟩

/-- Claim C2: (1) two validated invoices that differ only in
whitespace/hyphens/slashes of an otherwise identical invoice number and that
agree on invoice date and on a 15-character recipient GSTIN get the same
DuplicateKey, and deduplication of the pair keeps only the first; (2) in any
invoice list, a later invoice whose key already occurs earlier is dropped
(appending it leaves the deduplicated output unchanged); (3) two invoices
whose 15-character recipient GSTINs differ get different keys and both are
retained. -/
theorem C2_duplicate_key_and_dedup :
    (∀ (u : Str) (r1 r2 : VRec),
      r1.invoice_no.filter (fun c => !(c = '-' || isPySpace c || c = '/' || c = '\\')) =
        r2.invoice_no.filter (fun c => !(c = '-' || isPySpace c || c = '/' || c = '\\')) →
      r1.invoice_date = r2.invoice_date →
      pyStrip r1.recipient_gstin = pyStrip r2.recipient_gstin →
      (pyStrip r1.recipient_gstin).length = 15 →
      get_duplicate_key (vrecToDict r1) u = get_duplicate_key (vrecToDict r2) u ∧
      deduplicate_invoices [vrecToDict r1, vrecToDict r2] u = .ok [vrecToDict r1]) ∧
    (∀ (u : Str) (l : List PyVal) (inv : PyVal) (k : Str),
      get_duplicate_key inv u = .ok k →
      (∃ p ∈ l, get_duplicate_key p u = .ok k) →
      deduplicate_invoices (l ++ [inv]) u = deduplicate_invoices l u) ∧
    (∀ (u : Str) (r1 r2 : VRec),
      (pyStrip r1.recipient_gstin).length = 15 →
      (pyStrip r2.recipient_gstin).length = 15 →
      pyStrip r1.recipient_gstin ≠ pyStrip r2.recipient_gstin →
      get_duplicate_key (vrecToDict r1) u ≠ get_duplicate_key (vrecToDict r2) u ∧
      deduplicate_invoices [vrecToDict r1, vrecToDict r2] u =
        .ok [vrecToDict r1, vrecToDict r2]) := by
  refine ⟨?_, ?_, ?_⟩
  · intro u r1 r2 hno hdate hg h15
    have h15b : (pyStrip r2.recipient_gstin).length = 15 := by
      rw [← hg]
      exact h15
    have hkeys : get_duplicate_key (vrecToDict r1) u = get_duplicate_key (vrecToDict r2) u := by
      rw [get_key_vrec_b2b u r1 h15, get_key_vrec_b2b u r2 h15b, hg, hdate,
          normalize_eq_of_filter _ _ hno]
    refine ⟨hkeys, ?_⟩
    exact dedup_two_same u _ _ _ (get_key_vrec_b2b u r1 h15)
      (hkeys ▸ get_key_vrec_b2b u r1 h15)
  · intro u l inv k hk hex
    unfold deduplicate_invoices
    exact dedupLoop_append_dup u l [] [] inv k hk (Or.inr hex)
  · intro u r1 r2 h1 h2 hne
    refine ⟨b2b_key_ne u r1 r2 h1 h2 hne, ?_⟩
    apply dedup_two_diff u _ _ _ _ (get_key_vrec_b2b u r1 h1) (get_key_vrec_b2b u r2 h2)
    intro hcontra
    exact b2b_key_ne u r1 r2 h1 h2 hne (by rw [get_key_vrec_b2b u r1 h1, get_key_vrec_b2b u r2 h2, hcontra])

theorem C2_duplicate_key_and_dedup_witness :
    (deduplicate_invoices
        [vrecToDict ⟨"INV-001".data, "07ABCDE0001F1ZQ".data, [], some "2024-03-15".data,
            100, 0, 0, 0, 0, 0, [], []⟩,
         vrecToDict ⟨"INV 001".data, "07ABCDE0001F1ZQ".data, [], some "2024-03-15".data,
            100, 0, 0, 0, 0, 0, [], []⟩] "29ZZZZZ9999Z9Z9".data =
      .ok [vrecToDict ⟨"INV-001".data, "07ABCDE0001F1ZQ".data, [], some "2024-03-15".data,
            100, 0, 0, 0, 0, 0, [], []⟩]) ∧
    (deduplicate_invoices
        [vrecToDict ⟨"INV-001".data, "07ABCDE0001F1ZQ".data, [], some "2024-03-15".data,
            100, 0, 0, 0, 0, 0, [], []⟩,
         vrecToDict ⟨"INV-001".data, "07ABCDE0001F1ZR".data, [], some "2024-03-15".data,
            100, 0, 0, 0, 0, 0, [], []⟩] "29ZZZZZ9999Z9Z9".data =
      .ok [vrecToDict ⟨"INV-001".data, "07ABCDE0001F1ZQ".data, [], some "2024-03-15".data,
            100, 0, 0, 0, 0, 0, [], []⟩,
           vrecToDict ⟨"INV-001".data, "07ABCDE0001F1ZR".data, [], some "2024-03-15".data,
            100, 0, 0, 0, 0, 0, [], []⟩]) :=
  ⟨(C2_duplicate_key_and_dedup.1 "29ZZZZZ9999Z9Z9".data
      ⟨"INV-001".data, "07ABCDE0001F1ZQ".data, [], some "2024-03-15".data,
        100, 0, 0, 0, 0, 0, [], []⟩
      ⟨"INV 001".data, "07ABCDE0001F1ZQ".data, [], some "2024-03-15".data,
        100, 0, 0, 0, 0, 0, [], []⟩
      (by decide) (by decide) (by decide) (by decide)).2,
   (C2_duplicate_key_and_dedup.2.2 "29ZZZZZ9999Z9Z9".data
      ⟨"INV-001".data, "07ABCDE0001F1ZQ".data, [], some "2024-03-15".data,
        100, 0, 0, 0, 0, 0, [], []⟩
      ⟨"INV-001".data, "07ABCDE0001F1ZR".data, [], some "2024-03-15".data,
        100, 0, 0, 0, 0, 0, [], []⟩
      (by decide) (by decide) (by decide)).2⟩

theorem coerceStr_str (s : Str) : coerceStr (.str s) = pyStrip s := by
  cases s with
  | nil => rfl
  | cons c cs => rfl

theorem coerceStr_stripped (v : PyVal) : pyStrip (coerceStr v) = coerceStr v := by
  unfold coerceStr
  exact pyStrip_idem _

theorem validateItem_ok_stripped (v : PyVal) (it : VItem)
    (h : validateItem v = .ok it) :
    pyStrip it.product_name = it.product_name ∧ pyStrip it.hsn_code = it.hsn_code := by
  cases v with
  | dict kvs =>
    simp only [validateItem, Except.ok.injEq] at h
    subst h
    exact ⟨coerceStr_stripped _, coerceStr_stripped _⟩
  | none => simp [validateItem] at h
  | num q => simp [validateItem] at h
  | str s => simp [validateItem] at h
  | list xs => simp [validateItem] at h

theorem validateItem_vitem (it : VItem)
    (hp : pyStrip it.product_name = it.product_name)
    (hh : pyStrip it.hsn_code = it.hsn_code) :
    validateItem (vitemToDict it) = .ok it := by
  have h0 : validateItem (vitemToDict it) = .ok
      ⟨coerceStr (.str it.product_name), coerceStr (.str it.hsn_code),
       it.quantity, it.unit_price, it.taxable_value, it.igst_rate, it.cgst_rate,
       it.sgst_rate, it.igst, it.cgst, it.sgst, it.cess⟩ := rfl
  rw [h0, coerceStr_str, coerceStr_str, hp, hh]

theorem exceptBind_err {e a b : Type} (x : e) (f : a → Except e b) :
    (Except.error x : Except e a) >>= f = .error x := rfl

theorem exceptMap_ok {e a b : Type} (f : a → b) (x : a) :
    (f <$> (Except.ok x : Except e a)) = .ok (f x) := rfl

theorem exceptMap_err {e a b : Type} (f : a → b) (x : e) :
    (f <$> (Except.error x : Except e a)) = .error x := rfl

theorem mapM_validateItem_mem :
    ∀ (xs : List PyVal) (its : List VItem), xs.mapM validateItem = .ok its →
      ∀ it ∈ its, ∃ v, validateItem v = .ok it := by
  intro xs
  induction xs with
  | nil =>
    intro its h it hit
    have h2 : (Except.ok ([] : List VItem) : Except PyErr (List VItem)) = .ok its := h
    simp only [Except.ok.injEq] at h2
    subst h2
    simp at hit
  | cons x rest ih =>
    intro its h it hit
    rw [List.mapM_cons] at h
    cases hx : validateItem x with
    | error e =>
      rw [hx, exceptBind_err] at h
      simp at h
    | ok v1 =>
      rw [hx, exceptBind_ok] at h
      cases hrest : rest.mapM validateItem with
      | error e =>
        rw [hrest, exceptBind_err] at h
        simp at h
      | ok vs =>
        rw [hrest, exceptBind_ok] at h
        have h3 : (Except.ok (v1 :: vs) : Except PyErr (List VItem)) = .ok its := h
        simp only [Except.ok.injEq] at h3
        subst h3
        rcases List.mem_cons.mp hit with rfl | hit2
        · exact ⟨x, hx⟩
        · exact ih vs hrest it hit2

theorem mapM_vitem_roundtrip :
    ∀ (its : List VItem),
      (∀ it ∈ its, pyStrip it.product_name = it.product_name ∧
        pyStrip it.hsn_code = it.hsn_code) →
      (its.map vitemToDict).mapM validateItem = .ok its := by
  intro its
  induction its with
  | nil =>
    intro _
    rfl
  | cons it rest ih =>
    intro h
    rw [List.map_cons, List.mapM_cons,
        validateItem_vitem it (h it (List.mem_cons_self it rest)).1
          (h it (List.mem_cons_self it rest)).2,
        exceptBind_ok,
        ih (fun x hx => h x (List.mem_cons_of_mem it hx)),
        exceptBind_ok]
    rfl

theorem validate_date_fact (kvs : List (Str × PyVal)) :
    ∀ s, (match dictGet kvs "invoice_date".data (.str []) with
      | PyVal.str s2 => if (strptimeYmd s2).isSome = true then some s2 else Option.none
      | _ => Option.none) = some s → (strptimeYmd s).isSome = true := by
  intro s hs
  cases hdv : dictGet kvs "invoice_date".data (.str []) with
  | str s2 =>
    rw [hdv] at hs
    by_cases hok : (strptimeYmd s2).isSome = true
    · simp only [if_pos hok, Option.some.injEq] at hs
      subst hs
      exact hok
    · simp only [hok, if_false] at hs
      cases hs
  | none => rw [hdv] at hs; cases hs
  | num q => rw [hdv] at hs; cases hs
  | list l => rw [hdv] at hs; cases hs
  | dict kk => rw [hdv] at hs; cases hs

theorem validateFields_ok_facts (d : PyVal) (r : VRec) (h : validateFields d = .ok r) :
    pyStrip r.invoice_no = r.invoice_no ∧
    pyStrip r.recipient_gstin = r.recipient_gstin ∧
    pyStrip r.recipient_name = r.recipient_name ∧
    pyStrip r.place_of_supply = r.place_of_supply ∧
    (∀ s, r.invoice_date = some s → (strptimeYmd s).isSome = true) ∧
    (∀ it ∈ r.items, pyStrip it.product_name = it.product_name ∧
      pyStrip it.hsn_code = it.hsn_code) := by
  cases d with
  | dict kvs =>
    simp only [validateFields] at h
    cases hobj : dictGet kvs "items".data (.list []) with
    | list xs =>
      rw [hobj] at h
      dsimp only at h
      cases hm : xs.mapM validateItem with
      | error e => rw [hm, exceptBind_err] at h; cases h
      | ok its =>
        rw [hm, exceptBind_ok] at h
        simp only [Except.ok.injEq] at h
        subst h
        refine ⟨coerceStr_stripped _, coerceStr_stripped _, coerceStr_stripped _,
          coerceStr_stripped _, validate_date_fact kvs, ?_⟩
        intro it hit
        obtain ⟨v, hv⟩ := mapM_validateItem_mem xs its hm it hit
        exact validateItem_ok_stripped v it hv
    | str s =>
      rw [hobj] at h
      cases s with
      | nil =>
        dsimp only at h
        rw [exceptBind_ok] at h
        simp only [Except.ok.injEq] at h
        subst h
        exact ⟨coerceStr_stripped _, coerceStr_stripped _, coerceStr_stripped _,
          coerceStr_stripped _, validate_date_fact kvs, by simp⟩
      | cons c cs =>
        dsimp only at h
        rw [exceptBind_err] at h
        cases h
    | dict kk =>
      rw [hobj] at h
      cases kk with
      | nil =>
        dsimp only at h
        rw [exceptBind_ok] at h
        simp only [Except.ok.injEq] at h
        subst h
        exact ⟨coerceStr_stripped _, coerceStr_stripped _, coerceStr_stripped _,
          coerceStr_stripped _, validate_date_fact kvs, by simp⟩
      | cons p ps =>
        dsimp only at h
        rw [exceptBind_err] at h
        cases h
    | none =>
      rw [hobj] at h
      dsimp only at h
      rw [exceptBind_err] at h
      cases h
    | num q =>
      rw [hobj] at h
      dsimp only at h
      rw [exceptBind_err] at h
      cases h
  | none => simp [validateFields] at h
  | num q => simp [validateFields] at h
  | str s => simp [validateFields] at h
  | list xs => simp [validateFields] at h

theorem vrecGet_name (r : VRec) :
    dictGet (vrecKvs r) "recipient_name".data (.str []) = .str r.recipient_name := rfl

theorem vrecGet_place (r : VRec) :
    dictGet (vrecKvs r) "place_of_supply".data (.str []) = .str r.place_of_supply := rfl

theorem vrecGet_taxable (r : VRec) :
    dictGet (vrecKvs r) "taxable_value".data (.num 0) = .num r.taxable_value := rfl

theorem vrecGet_igst (r : VRec) :
    dictGet (vrecKvs r) "igst".data (.num 0) = .num r.igst := rfl

theorem vrecGet_cgst (r : VRec) :
    dictGet (vrecKvs r) "cgst".data (.num 0) = .num r.cgst := rfl

theorem vrecGet_sgst (r : VRec) :
    dictGet (vrecKvs r) "sgst".data (.num 0) = .num r.sgst := rfl

theorem vrecGet_cess (r : VRec) :
    dictGet (vrecKvs r) "cess".data (.num 0) = .num r.cess := rfl

theorem vrecGet_dateStr (r : VRec) :
    dictGet (vrecKvs r) "invoice_date".data (.str []) =
      (match r.invoice_date with | some s => PyVal.str s | Option.none => .none) := rfl

theorem coerceNum_num (q : ℚ) : coerceNum (.num q) = q := rfl

theorem validateFields_roundtrip (d : PyVal) (r : VRec) (h : validateFields d = .ok r) :
    validateFields (vrecToDict r) = .ok r := by
  obtain ⟨h1, h2, h3, h4, h5, h6⟩ := validateFields_ok_facts d r h
  have hv : vrecToDict r = .dict (vrecKvs r) := rfl
  rw [hv]
  simp only [validateFields]
  rw [show dictGet (vrecKvs r) "items".data (.list []) = .list (r.items.map vitemToDict) from rfl]
  dsimp only
  rw [mapM_vitem_roundtrip r.items h6, exceptBind_ok]
  rw [vrecGet_no, vrecGet_gstin, vrecGet_name, vrecGet_dateStr, vrecGet_value,
      vrecGet_taxable, vrecGet_igst, vrecGet_cgst, vrecGet_sgst, vrecGet_cess,
      vrecGet_place,
      coerceStr_str, coerceStr_str, coerceStr_str, coerceStr_str,
      coerceNum_num, coerceNum_num, coerceNum_num, coerceNum_num, coerceNum_num,
      coerceNum_num, h1, h2, h3, h4]
  cases hd : r.invoice_date with
  | none =>
    simp only [Except.ok.injEq]
    have hrec : r = { r with invoice_date := Option.none } := by
      rw [← hd]
    conv_rhs => rw [hrec]
  | some s =>
    have hs := h5 s hd
    simp only [hs, if_true, Except.ok.injEq]
    have hrec : r = { r with invoice_date := some s } := by
      rw [← hd]
    conv_rhs => rw [hrec]

/-- Claim C9: `validate_gst_data` is idempotent — validating an
already-validated invoice dict returns it unchanged (trimming, numeric
coercion, date checking and item validation are all fixpoints on validated
output). -/
theorem C9_validate_idempotent (d v : PyVal) (h : validate_gst_data d = .ok v) :
    validate_gst_data v = .ok v := by
  unfold validate_gst_data at h ⊢
  cases hf : validateFields d with
  | error e => rw [hf] at h; cases h
  | ok r =>
    rw [hf] at h
    have h2 : (Except.ok (vrecToDict r) : Except PyErr PyVal) = .ok v := h
    simp only [Except.ok.injEq] at h2
    subst h2
    rw [validateFields_roundtrip d r hf]
    rfl

theorem C9_validate_idempotent_witness :
    validateFields (.dict [("invoice_no".data, .str " A-1 ".data),
        ("invoice_value".data, .str "12.5".data),
        ("invoice_date".data, .str "2024-02-30".data)]) =
      .ok ⟨"A-1".data, [], [], Option.none, mkRat 25 2, 0, 0, 0, 0, 0, [], []⟩ ∧
    validate_gst_data (vrecToDict ⟨"A-1".data, [], [], Option.none, mkRat 25 2, 0, 0, 0, 0, 0, [], []⟩) =
      .ok (vrecToDict ⟨"A-1".data, [], [], Option.none, mkRat 25 2, 0, 0, 0, 0, 0, [], []⟩) := by
  have hf : validateFields (.dict [("invoice_no".data, .str " A-1 ".data),
      ("invoice_value".data, .str "12.5".data),
      ("invoice_date".data, .str "2024-02-30".data)]) =
      .ok ⟨"A-1".data, [], [], Option.none, mkRat 25 2, 0, 0, 0, 0, 0, [], []⟩ := by
    decide
  refine ⟨hf, C9_validate_idempotent (.dict [("invoice_no".data, .str " A-1 ".data),
      ("invoice_value".data, .str "12.5".data),
      ("invoice_date".data, .str "2024-02-30".data)])
      (vrecToDict ⟨"A-1".data, [], [], Option.none, mkRat 25 2, 0, 0, 0, 0, 0, [], []⟩) ?_⟩
  show (validateFields (.dict [("invoice_no".data, .str " A-1 ".data),
      ("invoice_value".data, .str "12.5".data),
      ("invoice_date".data, .str "2024-02-30".data)])).map vrecToDict = _
  rw [hf]
  rfl

theorem dictGet_mem_or_default (kvs : List (Str × PyVal)) (k : Str) (d : PyVal) :
    dictGet kvs k d = d ∨ ∃ kv ∈ kvs, dictGet kvs k d = kv.2 := by
  unfold dictGet
  cases hf : kvs.find? (fun p => decide (p.1 = k)) with
  | none => left; rfl
  | some p => right; exact ⟨p, List.mem_of_find?_eq_some hf, rfl⟩

theorem coerceNum_dictGet_nonneg (kvs : List (Str × PyVal)) (k : Str)
    (hnn : ∀ kv ∈ kvs, 0 ≤ coerceNum kv.2) :
    0 ≤ coerceNum (dictGet kvs k (.num 0)) := by
  rcases dictGet_mem_or_default kvs k (.num 0) with hd | ⟨kv, hkv, he⟩
  · rw [hd, coerceNum_num]
  · rw [he]; exact hnn kv hkv

theorem validateItem_nonneg (ikvs : List (Str × PyVal)) (it : VItem)
    (h : validateItem (.dict ikvs) = .ok it)
    (hni : ∀ kv ∈ ikvs, 0 ≤ coerceNum kv.2) :
    0 ≤ it.quantity ∧ 0 ≤ it.unit_price ∧ 0 ≤ it.taxable_value ∧
    0 ≤ it.igst_rate ∧ 0 ≤ it.cgst_rate ∧ 0 ≤ it.sgst_rate ∧
    0 ≤ it.igst ∧ 0 ≤ it.cgst ∧ 0 ≤ it.sgst ∧ 0 ≤ it.cess := by
  simp only [validateItem, Except.ok.injEq] at h
  subst h
  exact ⟨coerceNum_dictGet_nonneg ikvs _ hni, coerceNum_dictGet_nonneg ikvs _ hni,
    coerceNum_dictGet_nonneg ikvs _ hni, coerceNum_dictGet_nonneg ikvs _ hni,
    coerceNum_dictGet_nonneg ikvs _ hni, coerceNum_dictGet_nonneg ikvs _ hni,
    coerceNum_dictGet_nonneg ikvs _ hni, coerceNum_dictGet_nonneg ikvs _ hni,
    coerceNum_dictGet_nonneg ikvs _ hni, coerceNum_dictGet_nonneg ikvs _ hni⟩

theorem mapM_validateItem_mem_src :
    ∀ (xs : List PyVal) (its : List VItem), xs.mapM validateItem = .ok its →
      ∀ it ∈ its, ∃ v ∈ xs, validateItem v = .ok it := by
  intro xs
  induction xs with
  | nil =>
    intro its h it hit
    have h2 : (Except.ok ([] : List VItem) : Except PyErr (List VItem)) = .ok its := h
    simp only [Except.ok.injEq] at h2
    subst h2
    simp at hit
  | cons x rest ih =>
    intro its h it hit
    rw [List.mapM_cons] at h
    cases hx : validateItem x with
    | error e =>
      rw [hx, exceptBind_err] at h
      simp at h
    | ok v1 =>
      rw [hx, exceptBind_ok] at h
      cases hrest : rest.mapM validateItem with
      | error e =>
        rw [hrest, exceptBind_err] at h
        simp at h
      | ok vs =>
        rw [hrest, exceptBind_ok] at h
        have h3 : (Except.ok (v1 :: vs) : Except PyErr (List VItem)) = .ok its := h
        simp only [Except.ok.injEq] at h3
        subst h3
        rcases List.mem_cons.mp hit with rfl | hit2
        · exact ⟨x, List.mem_cons_self x rest, hx⟩
        · obtain ⟨v, hv1, hv2⟩ := ih vs hrest it hit2
          exact ⟨v, List.mem_cons_of_mem x hv1, hv2⟩

/-- C6, counterexample: `validate_gst_data` accepts a candidate whose
`invoice_value` is the negative number -100 and emits it unchanged, so the
claimed non-negativity of every numeric output field is false. -/
theorem C6_counterexample_negative :
    validate_gst_data (.dict [("invoice_value".data, .num (-100))]) =
      .ok (vrecToDict ⟨[], [], [], Option.none, -100, 0, 0, 0, 0, 0, [], []⟩) ∧
    ¬ (0 ≤ (-100 : ℚ)) := ⟨rfl, by norm_num⟩

/-- C6 (amended): the `items` field of `validate_gst_data`'s output is always
a list (possibly empty); and when every value stored in the candidate dict and
in each of its item dicts coerces (`float(...) or 0.0`) to a non-negative
number, every numeric field of the validated invoice and of each validated
item is non-negative.  Negative inputs are NOT clipped: the unconditional
non-negativity asserted by the claim fails (see the counterexample). -/
theorem C6_items_list_and_nonneg (kvs : List (Str × PyVal)) (r : VRec)
    (h : validateFields (.dict kvs) = .ok r)
    (hnn : ∀ kv ∈ kvs, 0 ≤ coerceNum kv.2)
    (hitems : ∀ x ∈ (match dictGet kvs "items".data (.list []) with
        | PyVal.list xs => xs | _ => ([] : List PyVal)),
      ∀ kv ∈ ((match x with
        | PyVal.dict ikvs => ikvs | _ => []) : List (Str × PyVal)),
        0 ≤ coerceNum kv.2) :
    dictGet (vrecKvs r) "items".data .none = .list (r.items.map vitemToDict) ∧
    0 ≤ r.invoice_value ∧ 0 ≤ r.taxable_value ∧ 0 ≤ r.igst ∧ 0 ≤ r.cgst ∧
    0 ≤ r.sgst ∧ 0 ≤ r.cess ∧
    ∀ it ∈ r.items, 0 ≤ it.quantity ∧ 0 ≤ it.unit_price ∧ 0 ≤ it.taxable_value ∧
      0 ≤ it.igst_rate ∧ 0 ≤ it.cgst_rate ∧ 0 ≤ it.sgst_rate ∧
      0 ≤ it.igst ∧ 0 ≤ it.cgst ∧ 0 ≤ it.sgst ∧ 0 ≤ it.cess := by
  simp only [validateFields] at h
  cases hobj : dictGet kvs "items".data (.list []) with
  | list xs =>
    rw [hobj] at h
    dsimp only at h
    rw [hobj] at hitems
    dsimp only at hitems
    cases hm : xs.mapM validateItem with
    | error e => rw [hm, exceptBind_err] at h; cases h
    | ok its =>
      rw [hm, exceptBind_ok] at h
      simp only [Except.ok.injEq] at h
      subst h
      refine ⟨rfl, coerceNum_dictGet_nonneg kvs _ hnn, coerceNum_dictGet_nonneg kvs _ hnn,
        coerceNum_dictGet_nonneg kvs _ hnn, coerceNum_dictGet_nonneg kvs _ hnn,
        coerceNum_dictGet_nonneg kvs _ hnn, coerceNum_dictGet_nonneg kvs _ hnn, ?_⟩
      intro it hit
      obtain ⟨v, hvx, hv⟩ := mapM_validateItem_mem_src xs its hm it hit
      cases v with
      | dict ikvs =>
        exact validateItem_nonneg ikvs it hv (hitems (.dict ikvs) hvx)
      | str s => exact absurd hv (by simp [validateItem])
      | num q => exact absurd hv (by simp [validateItem])
      | none => exact absurd hv (by simp [validateItem])
      | list l => exact absurd hv (by simp [validateItem])
  | str s =>
    rw [hobj] at h
    cases s with
    | nil =>
      dsimp only at h
      rw [exceptBind_ok] at h
      simp only [Except.ok.injEq] at h
      subst h
      refine ⟨rfl, coerceNum_dictGet_nonneg kvs _ hnn, coerceNum_dictGet_nonneg kvs _ hnn,
        coerceNum_dictGet_nonneg kvs _ hnn, coerceNum_dictGet_nonneg kvs _ hnn,
        coerceNum_dictGet_nonneg kvs _ hnn, coerceNum_dictGet_nonneg kvs _ hnn, ?_⟩
      intro it hit
      simp at hit
    | cons c cs =>
      dsimp only at h
      rw [exceptBind_err] at h
      cases h
  | dict kk =>
    rw [hobj] at h
    rcases kk with _ | ⟨⟨k1, v1⟩, rest⟩
    · dsimp only at h
      rw [exceptBind_ok] at h
      simp only [Except.ok.injEq] at h
      subst h
      refine ⟨rfl, coerceNum_dictGet_nonneg kvs _ hnn, coerceNum_dictGet_nonneg kvs _ hnn,
        coerceNum_dictGet_nonneg kvs _ hnn, coerceNum_dictGet_nonneg kvs _ hnn,
        coerceNum_dictGet_nonneg kvs _ hnn, coerceNum_dictGet_nonneg kvs _ hnn, ?_⟩
      intro it hit
      simp at hit
    · dsimp only at h
      rw [exceptBind_err] at h
      cases h
  | none =>
    rw [hobj] at h
    dsimp only at h
    rw [exceptBind_err] at h
    cases h
  | num q =>
    rw [hobj] at h
    dsimp only at h
    rw [exceptBind_err] at h
    cases h

theorem C6_items_list_and_nonneg_witness :
    (validateFields (.dict [("invoice_value".data, .num 5),
        ("items".data, .list [.dict [("quantity".data, .num 2)]])]) =
      .ok ⟨[], [], [], Option.none, 5, 0, 0, 0, 0, 0,
        [⟨[], [], 2, 0, 0, 0, 0, 0, 0, 0, 0, 0⟩], []⟩) ∧
    (dictGet (vrecKvs ⟨[], [], [], Option.none, 5, 0, 0, 0, 0, 0,
        [⟨[], [], 2, 0, 0, 0, 0, 0, 0, 0, 0, 0⟩], []⟩) "items".data .none =
      .list ([⟨[], [], 2, 0, 0, 0, 0, 0, 0, 0, 0, 0⟩].map vitemToDict) ∧
     0 ≤ (5 : ℚ) ∧ 0 ≤ (0 : ℚ) ∧ 0 ≤ (0 : ℚ) ∧ 0 ≤ (0 : ℚ) ∧
     0 ≤ (0 : ℚ) ∧ 0 ≤ (0 : ℚ) ∧
     ∀ it ∈ ([⟨[], [], 2, 0, 0, 0, 0, 0, 0, 0, 0, 0⟩] : List VItem),
       0 ≤ it.quantity ∧ 0 ≤ it.unit_price ∧ 0 ≤ it.taxable_value ∧
       0 ≤ it.igst_rate ∧ 0 ≤ it.cgst_rate ∧ 0 ≤ it.sgst_rate ∧
       0 ≤ it.igst ∧ 0 ≤ it.cgst ∧ 0 ≤ it.sgst ∧ 0 ≤ it.cess) :=
  ⟨by decide,
   C6_items_list_and_nonneg
     [("invoice_value".data, .num 5),
      ("items".data, .list [.dict [("quantity".data, .num 2)]])]
     ⟨[], [], [], Option.none, 5, 0, 0, 0, 0, 0,
       [⟨[], [], 2, 0, 0, 0, 0, 0, 0, 0, 0, 0⟩], []⟩
     (by decide) (by decide) (by decide)⟩

/-- C4: `extract_gstr1_data` never propagates an exception.  With the API key
missing, the response absent (a raised call) or the response empty, the model
path cannot succeed; on every model-path failure the result is decided by the
manual fallback (`_manual_parse_invoices` wrapped in its own guard), the
model-path success value is returned as-is, and when the fallback also yields
nothing the function returns the literal well-formed empty result, whose
`total_invoices` is 0 and whose `invoices`/`b2b`/`b2cl`/`b2cs` are all empty
lists. -/
theorem C4_extract_no_raise (env : ExtractEnv) (chunks : List Str) (u n : Str) :
    (env.response = Option.none → ∀ v, modelPath env u ≠ .ok v) ∧
    (env.response = some [] → ∀ v, modelPath env u ≠ .ok v) ∧
    (∀ v, modelPath env u = .ok v → extract_gstr1_data env chunks u n = v) ∧
    (∀ e r, modelPath env u = .error e →
      fallbackAttempt env.rx (joinChunks chunks) = .ok (some r) →
      extract_gstr1_data env chunks u n = r) ∧
    (∀ e, modelPath env u = .error e →
      fallbackAttempt env.rx (joinChunks chunks) = .ok Option.none →
      extract_gstr1_data env chunks u n = defaultEmptyResult) ∧
    (∀ e e2, modelPath env u = .error e →
      fallbackAttempt env.rx (joinChunks chunks) = .error e2 →
      extract_gstr1_data env chunks u n = defaultEmptyResult) ∧
    (∃ dkvs, defaultEmptyResult = .dict dkvs ∧
      dictGet dkvs "total_invoices".data .none = .num 0 ∧
      dictGet dkvs "invoices".data .none = .list [] ∧
      dictGet dkvs "b2b".data .none = .list [] ∧
      dictGet dkvs "b2cl".data .none = .list [] ∧
      dictGet dkvs "b2cs".data .none = .list []) := by
  refine ⟨?_, ?_, ?_, ?_, ?_, ?_, ?_⟩
  · intro hr v
    have hmp : modelPath env u = .error .valueError := by
      unfold modelPath
      rw [hr]
      cases env.apiKey <;> rfl
    rw [hmp]
    intro hc
    cases hc
  · intro hr v
    have hmp : modelPath env u = .error .valueError := by
      unfold modelPath
      rw [hr]
      cases env.apiKey <;> rfl
    rw [hmp]
    intro hc
    cases hc
  · intro v hv
    unfold extract_gstr1_data
    rw [hv]
  · intro e r he hf
    unfold extract_gstr1_data
    rw [he]
    dsimp only
    rw [hf]
  · intro e he hf
    unfold extract_gstr1_data
    rw [he]
    dsimp only
    rw [hf]
  · intro e e2 he hf
    unfold extract_gstr1_data
    rw [he]
    dsimp only
    rw [hf]
  · exact ⟨_, rfl, rfl, rfl, rfl, rfl, rfl⟩

theorem C4_extract_no_raise_witness :
    ((⟨false, Option.none, fun _ => Option.none,
        ⟨fun _ => Option.none, fun _ => Option.none, fun _ => Option.none,
         fun _ => Option.none, fun _ => Option.none, fun _ => Option.none⟩⟩ :
        ExtractEnv).response = Option.none) ∧
    extract_gstr1_data
      ⟨false, Option.none, fun _ => Option.none,
        ⟨fun _ => Option.none, fun _ => Option.none, fun _ => Option.none,
         fun _ => Option.none, fun _ => Option.none, fun _ => Option.none⟩⟩
      [] [] [] = defaultEmptyResult :=
  ⟨rfl,
   (C4_extract_no_raise
      ⟨false, Option.none, fun _ => Option.none,
        ⟨fun _ => Option.none, fun _ => Option.none, fun _ => Option.none,
         fun _ => Option.none, fun _ => Option.none, fun _ => Option.none⟩⟩
      [] [] []).2.2.2.2.1 .valueError rfl rfl⟩

theorem screenChunks_mem (chunks : List Str) (pats : List Str) (i : Nat) (c : Str)
    (h : (i, c) ∈ screenChunks chunks pats) :
    chunks[i]? = some c ∧ has_relevant_dates c pats = true := by
  unfold screenChunks at h
  rw [List.mem_filter] at h
  exact ⟨List.mk_mem_enum_iff_getElem?.mp h.1, h.2⟩

theorem collectIndices_mem (relevant : List (Nat × Str)) :
    ∀ (es : List AiEntry) (idxs : List Nat), collectIndices relevant es = some idxs →
      ∀ i ∈ idxs, ∃ c, (i, c) ∈ relevant := by
  intro es
  induction es with
  | nil =>
    intro idxs h i hi
    simp only [collectIndices, Option.some.injEq] at h
    subst h
    simp at hi
  | cons e rest ih =>
    intro idxs h i hi
    simp only [collectIndices] at h
    cases hb : e.containsDates with
    | false =>
      rw [hb] at h
      simp only [Bool.false_eq_true, if_false] at h
      exact ih idxs h i hi
    | true =>
      rw [hb] at h
      simp only [if_true] at h
      by_cases hlt : e.chunk_index < (relevant.length : Int)
      · rw [if_pos hlt] at h
        cases hg : pyListGet relevant e.chunk_index with
        | none => rw [hg] at h; cases h
        | some p =>
          rw [hg] at h
          dsimp only at h
          cases hrest : collectIndices relevant rest with
          | none => rw [hrest, Option.map_none'] at h; cases h
          | some idxs2 =>
            rw [hrest, Option.map_some'] at h
            simp only [Option.some.injEq] at h
            subst h
            rcases List.mem_cons.mp hi with rfl | hi2
            · refine ⟨p.2, ?_⟩
              have hp : p ∈ relevant := by
                unfold pyListGet at hg
                by_cases h0 : (0 : Int) ≤ e.chunk_index
                · rw [if_pos h0] at hg
                  exact List.get?_mem hg
                · rw [if_neg h0] at hg
                  by_cases h1 : (0 : Int) ≤ e.chunk_index + relevant.length
                  · rw [if_pos h1] at hg
                    exact List.get?_mem hg
                  · rw [if_neg h1] at hg
                    cases hg
              exact hp
            · exact ih idxs2 hrest i hi2
      · rw [if_neg hlt] at h
        exact ih idxs h i hi
    
theorem ai_date_filtering_mem (oracle : Option (List AiEntry))
    (relevant : List (Nat × Str)) (fm fy : Str) (res : FilterRes)
    (h : ai_date_filtering oracle relevant fm fy = .result res) :
    ∀ i ∈ res.filtered_chunks, ∃ c, (i, c) ∈ relevant := by
  unfold ai_date_filtering at h
  dsimp only at h
  by_cases hpre : (relevant.filter
      (fun p => (extract_all_dates_from_chunk p.2).any (monthMatches fm fy))).isEmpty
  · rw [hpre] at h
    simp only [Bool.not_true, Bool.false_eq_true, if_false] at h
    cases ho : oracle.bind (collectIndices relevant) with
    | some idxs =>
      rw [ho] at h
      simp only [FilterOutcome.result.injEq] at h
      subst h
      intro i hi
      obtain ⟨es, hes, hc⟩ := Option.bind_eq_some.mp ho
      exact collectIndices_mem relevant es idxs hc i hi
    | none =>
      rw [ho] at h
      simp only [FilterOutcome.result.injEq] at h
      subst h
      intro i hi
      obtain ⟨p, hp, hpi⟩ := List.mem_map.mp hi
      exact ⟨p.2, by rw [← hpi]; exact hp⟩
  · rw [Bool.not_eq_true] at hpre
    rw [hpre] at h
    simp only [Bool.not_false, if_true] at h
    simp only [FilterOutcome.result.injEq] at h
    subst h
    intro i hi
    obtain ⟨p, hp, hpi⟩ := List.mem_map.mp hi
    have hp2 := List.mem_filter.mp hp
    exact ⟨p.2, by rw [← hpi]; exact hp2.1⟩

theorem ai_date_range_filtering_mem (oracle : Option (List AiEntry))
    (relevant : List (Nat × Str)) (sd ed : Str) (res : FilterRes)
    (h : ai_date_range_filtering oracle relevant sd ed = .result res) :
    ∀ i ∈ res.filtered_chunks, ∃ c, (i, c) ∈ relevant := by
  unfold ai_date_range_filtering at h
  dsimp only at h
  by_cases hpre : (relevant.filter
      (fun p => (extract_all_dates_from_chunk p.2).any (rangeMatches sd ed))).isEmpty
  · rw [hpre] at h
    simp only [Bool.not_true, Bool.false_eq_true, if_false] at h
    cases ho : oracle.bind (collectIndices relevant) with
    | some idxs =>
      rw [ho] at h
      simp only [FilterOutcome.result.injEq] at h
      subst h
      intro i hi
      obtain ⟨es, hes, hc⟩ := Option.bind_eq_some.mp ho
      exact collectIndices_mem relevant es idxs hc i hi
    | none =>
      rw [ho] at h
      simp only [FilterOutcome.result.injEq] at h
      subst h
      intro i hi
      obtain ⟨p, hp, hpi⟩ := List.mem_map.mp hi
      exact ⟨p.2, by rw [← hpi]; exact hp⟩
  · rw [Bool.not_eq_true] at hpre
    rw [hpre] at h
    simp only [Bool.not_false, if_true] at h
    simp only [FilterOutcome.result.injEq] at h
    subst h
    intro i hi
    obtain ⟨p, hp, hpi⟩ := List.mem_map.mp hi
    have hp2 := List.mem_filter.mp hp
    exact ⟨p.2, by rw [← hpi]; exact hp2.1⟩

/-- C10: whichever mode is selected and whatever the model returns (well-formed
entries, malformed output modelled as `none`, or a raised call), every element
of the `filtered_chunks` list of a successful `filter_chunks_by_period` result
is the index of an actual input chunk that passed the provisional
`_has_relevant_dates` screen for the patterns generated for that mode: no
invented indices, no chunks without date evidence. -/
theorem C10_filtered_indices_screened (oracle : Option (List AiEntry))
    (chunks : List Str) (filing_month filing_year start_date end_date : Option Str)
    (r : FilterRes)
    (h : filter_chunks_by_period oracle chunks filing_month filing_year
      start_date end_date = .result r) :
    ∀ i ∈ r.filtered_chunks, ∃ c pats,
      chunks[i]? = some c ∧
      (i, c) ∈ screenChunks chunks pats ∧
      has_relevant_dates c pats = true ∧
      ((optTruthy start_date && optTruthy end_date) = true →
        ∃ a b, pats = generate_date_range_patterns a b) ∧
      ((optTruthy start_date && optTruthy end_date) = false →
        ∃ mn, generate_date_patterns mn (filing_year.getD []) = some pats) := by
  unfold filter_chunks_by_period at h
  cases hmode : (optTruthy start_date && optTruthy end_date) with
  | true =>
    simp only [hmode, if_true] at h
    cases hdash : (start_date.getD []).contains '-' with
    | true =>
      simp only [hdash, if_true] at h
      cases hsa : strptimeYmd (start_date.getD []) with
      | none =>
        rw [hsa] at h
        dsimp only at h
        cases h
      | some a =>
        rw [hsa] at h
        cases hsb : strptimeYmd (end_date.getD []) with
        | none =>
          rw [hsb] at h
          dsimp only at h
          cases h
        | some b =>
          rw [hsb] at h
          dsimp only at h
          cases hemp : (screenChunks chunks (generate_date_range_patterns a b)).isEmpty with
          | true =>
            rw [hemp] at h
            simp only [if_true, FilterOutcome.result.injEq] at h
            subst h
            intro i hi
            simp at hi
          | false =>
            rw [hemp] at h
            simp only [Bool.false_eq_true, if_false] at h
            intro i hi
            obtain ⟨c, hc⟩ := ai_date_range_filtering_mem oracle _ _ _ r h i hi
            obtain ⟨hget, hrel⟩ := screenChunks_mem chunks _ i c hc
            exact ⟨c, generate_date_range_patterns a b, hget, hc, hrel,
              fun _ => ⟨a, b, rfl⟩,
              fun hf => by cases hf⟩
    | false =>
      simp only [hdash, Bool.false_eq_true, if_false] at h
      cases hslash : (start_date.getD []).contains '/' with
      | true =>
        simp only [hslash, if_true] at h
        cases hsa : strptimeDmySlash (start_date.getD []) with
        | none =>
          rw [hsa] at h
          dsimp only at h
          cases h
        | some a =>
          rw [hsa] at h
          cases hsb : strptimeDmySlash (end_date.getD []) with
          | none =>
            rw [hsb] at h
            dsimp only at h
            cases h
          | some b =>
            rw [hsb] at h
            dsimp only at h
            cases hemp : (screenChunks chunks (generate_date_range_patterns a b)).isEmpty with
            | true =>
              rw [hemp] at h
              simp only [if_true, FilterOutcome.result.injEq] at h
              subst h
              intro i hi
              simp at hi
            | false =>
              rw [hemp] at h
              simp only [Bool.false_eq_true, if_false] at h
              intro i hi
              obtain ⟨c, hc⟩ := ai_date_range_filtering_mem oracle _ _ _ r h i hi
              obtain ⟨hget, hrel⟩ := screenChunks_mem chunks _ i c hc
              exact ⟨c, generate_date_range_patterns a b, hget, hc, hrel,
                fun _ => ⟨a, b, rfl⟩,
                fun hf => by cases hf⟩
      | false =>
        simp only [hslash, Bool.false_eq_true, if_false] at h
        cases h
  | false =>
    simp only [hmode, Bool.false_eq_true, if_false] at h
    cases hm2 : (optTruthy filing_month && optTruthy filing_year) with
    | false =>
      simp only [hm2, Bool.false_eq_true, if_false] at h
      cases h
    | true =>
      simp only [hm2, if_true] at h
      cases hmn : month_name_to_number (filing_month.getD []) with
      | none =>
        rw [hmn] at h
        dsimp only at h
        cases h
      | some mn =>
        rw [hmn] at h
        dsimp only at h
        cases hgp : generate_date_patterns mn (filing_year.getD []) with
        | none =>
          rw [hgp] at h
          dsimp only at h
          cases h
        | some pats =>
          rw [hgp] at h
          dsimp only at h
          cases hemp : (screenChunks chunks pats).isEmpty with
          | true =>
            rw [hemp] at h
            simp only [if_true, FilterOutcome.result.injEq] at h
            subst h
            intro i hi
            simp at hi
          | false =>
            rw [hemp] at h
            simp only [Bool.false_eq_true, if_false] at h
            intro i hi
            obtain ⟨c, hc⟩ := ai_date_filtering_mem oracle _ _ _ r h i hi
            obtain ⟨hget, hrel⟩ := screenChunks_mem chunks _ i c hc
            refine ⟨c, pats, hget, hc, hrel, ?_, fun _ => ⟨mn, hgp⟩⟩
            intro ht
            cases ht

theorem C10_filtered_indices_screened_witness :
    (filter_chunks_by_period Option.none ["15/03/2024".data] (some "March".data)
        (some "2024".data) Option.none Option.none =
      .result ⟨[0], "March 2024".data, 1, 1, Option.none,
        "Pre-filtered 1 chunks using local date parsing for March 2024".data⟩) ∧
    (∀ i ∈ (⟨[0], "March 2024".data, 1, 1, Option.none,
        "Pre-filtered 1 chunks using local date parsing for March 2024".data⟩ :
          FilterRes).filtered_chunks,
      ∃ c pats, ["15/03/2024".data][i]? = some c ∧
        (i, c) ∈ screenChunks ["15/03/2024".data] pats ∧
        has_relevant_dates c pats = true ∧
        ((optTruthy (Option.none : Option Str) &&
            optTruthy (Option.none : Option Str)) = true →
          ∃ a b, pats = generate_date_range_patterns a b) ∧
        ((optTruthy (Option.none : Option Str) &&
            optTruthy (Option.none : Option Str)) = false →
          ∃ mn, generate_date_patterns mn ((some "2024".data).getD []) = some pats)) :=
  ⟨rfl, C10_filtered_indices_screened Option.none ["15/03/2024".data]
      (some "March".data) (some "2024".data) Option.none Option.none _ rfl⟩
